import Mathlib

/-!
# Verification of the bronzebeard RISC-V assembler (src/bronzebeard/asm.py)

This file shallowly embeds the parts of the assembler needed to settle the
frozen claims: the relocation helpers, the instruction encoders, the item
data model, `parse_immediate` / `parse_item`, and the lowering passes
(`transform_compressible`, `transform_pseudo_instructions`,
`resolve_immediates`, `resolve_instructions`, `resolve_strings`,
`resolve_sequences`, `resolve_packs`, `resolve_aligns`).

Modelling conventions (Python → Lean):
* Python integers are `ℤ`.  Python `//` is floor division and Python `%`
  takes the divisor's sign; for a positive divisor (every divisor in this
  program is a positive literal, with one pathological exception noted at
  `Align`) these coincide with Lean's `Int` `/` (`Int.ediv`) and `%`
  (`Int.emod`), which are used throughout.
* Python `x & (2^k - 1)` and `x & 2^k` on (possibly negative) integers are
  two's-complement bit operations; they are modelled by `pyAndMask` and
  `pyAndBit` below, which are exactly equivalent for those mask shapes.
* Python exceptions are modelled by the `PyError` sum type; functions that
  can raise return `Except PyError α`.  Uncaught exceptions propagate via
  `Except.error`.
* The `Line` objects carried by items exist only for error reporting.  The
  items in this embedding do not carry lines; passes report errors with
  `dummyLine`.  `Expr.eval` takes the line as an argument, exactly as in
  the source, so the claims about error payloads are stated there.
-/

/-- A source line (file, 1-based number, raw text), as in class `Line`. -/
structure Line where
  file : String
  number : ℕ
  contents : String
deriving DecidableEq, Repr

/-- Placeholder line used where the embedding drops the per-item line. -/
def dummyLine : Line := ⟨"<string>", 0, ""⟩

/-- Python exception values that the assembler can raise or propagate. -/
inductive PyError where
  /-- `AssemblerError(message, line)` -/
  | assemblerError (message : String) (line : Line)
  /-- `ValueError(message)` (low-level encoder / conversion errors) -/
  | valueError (message : String)
  /-- `KeyError(key)` from a failed dict lookup, e.g. `env[self.reference]` -/
  | keyError (key : String)
  /-- `TypeError` (e.g. comparing a str immediate with an int bound) -/
  | typeError (message : String)
  /-- `AttributeError` from accessing a missing attribute -/
  | attributeError (name : String)
  /-- `IndexError` from an out-of-range subscript such as `imm[1]` -/
  | indexError
  /-- `struct.error` from `struct.pack` -/
  | structError (message : String)
deriving DecidableEq, Repr

instance instDecEqExcept {ε α : Type} [DecidableEq ε] [DecidableEq α] :
    DecidableEq (Except ε α) := fun a b =>
  match a, b with
  | .ok x, .ok y =>
    if h : x = y then .isTrue (by rw [h]) else .isFalse (by intro hh; cases hh; exact h rfl)
  | .error x, .error y =>
    if h : x = y then .isTrue (by rw [h]) else .isFalse (by intro hh; cases hh; exact h rfl)
  | .ok _, .error _ => .isFalse (by intro h; cases h)
  | .error _, .ok _ => .isFalse (by intro h; cases h)

/-- Python `x & (2^k - 1)` for an arbitrary (two's-complement) integer:
keeping the low `k` bits is reduction mod `2^k`. -/
def pyAndMask (x : ℤ) (k : ℕ) : ℤ := x % 2 ^ k

/-- Python `x & 2^k` for an arbitrary (two's-complement) integer:
the value of bit `k`, scaled back into place. -/
def pyAndBit (x : ℤ) (k : ℕ) : ℤ := 2 ^ k * (x / 2 ^ k % 2)

/-- Python `x >> k` (arithmetic right shift = floor division). -/
def pyShr (x : ℤ) (k : ℕ) : ℤ := x / 2 ^ k

/-- `sign_extend(value, bits)`:
`(value & (sign_bit - 1)) - (value & sign_bit)` with `sign_bit = 1 << (bits-1)`. -/
def sign_extend (value : ℤ) (bits : ℕ) : ℤ :=
  pyAndMask value (bits - 1) - pyAndBit value (bits - 1)

/-- `relocate_hi(imm)`: round up past the low 12 bits when bit 11 is set,
then sign-extend the 20-bit upper part. -/
def relocate_hi (imm : ℤ) : ℤ :=
  let imm' := if pyAndBit imm 11 ≠ 0 then imm + 2 ^ 12 else imm
  sign_extend (pyAndMask (pyShr imm' 12) 20) 20

/-- `relocate_lo(imm)`: sign-extend the low 12 bits. -/
def relocate_lo (imm : ℤ) : ℤ := sign_extend (pyAndMask imm 12) 12

/-- `ctypes.c_int32(v).value`: wrap to a signed 32-bit value. -/
def cInt32 (v : ℤ) : ℤ := (v + 2 ^ 31) % 2 ^ 32 - 2 ^ 31

/-- `ctypes.c_uint32(v).value`: wrap to an unsigned 32-bit value. -/
def cUint32 (v : ℤ) : ℤ := v % 2 ^ 32

/-- Python `x << k` on integers. -/
def pyShl (x : ℤ) (k : ℕ) : ℤ := x * 2 ^ k

/-- Python `a | b` for non-negative integers (every use in the encoders
combines non-negative field values). -/
def pyOr (a b : ℤ) : ℤ := ((a.toNat ||| b.toNat : ℕ) : ℤ)

/-- A Python value that is either an `int` or a `str` (register operands,
fence/atomic ordering operands and such are stored as either). -/
inductive PyScalar where
  | int (n : ℤ)
  | str (s : String)
deriving DecidableEq, Repr

/-- Value of a digit character for bases up to 16. -/
def digitVal (c : Char) : Option ℕ :=
  if '0' ≤ c ∧ c ≤ '9' then some (c.toNat - '0'.toNat)
  else if 'a' ≤ c ∧ c ≤ 'f' then some (c.toNat - 'a'.toNat + 10)
  else if 'A' ≤ c ∧ c ≤ 'F' then some (c.toNat - 'A'.toNat + 10)
  else none

/-- Parse a non-empty digit string in the given base. -/
def parseDigits (base : ℕ) (cs : List Char) : Option ℕ :=
  match cs with
  | [] => none
  | _ =>
    cs.foldl (fun acc c =>
      match acc, digitVal c with
      | some n, some d => if d < base then some (n * base + d) else none
      | _, _ => none) (some 0)

/-- Models Python's integer-literal grammar without a sign, as accepted by
`int(s, base=0)` and by integer literals inside `eval` expressions:
`0x…`/`0o…`/`0b…` prefixes, plain decimal, and the rule that a leading `0`
is only allowed when every digit is `0`.  (Underscore separators and
surrounding whitespace, which no claim exercises, are not modelled.) -/
def parseUnsignedBase0 (cs : List Char) : Option ℤ :=
  match cs with
  | '0' :: 'x' :: rest => (parseDigits 16 rest).map Int.ofNat
  | '0' :: 'X' :: rest => (parseDigits 16 rest).map Int.ofNat
  | '0' :: 'o' :: rest => (parseDigits 8 rest).map Int.ofNat
  | '0' :: 'O' :: rest => (parseDigits 8 rest).map Int.ofNat
  | '0' :: 'b' :: rest => (parseDigits 2 rest).map Int.ofNat
  | '0' :: 'B' :: rest => (parseDigits 2 rest).map Int.ofNat
  | '0' :: rest => if rest.all (· = '0') then some 0 else none
  | _ => (parseDigits 10 cs).map Int.ofNat

/-- Models Python `int(s, base=0)` (see `parseUnsignedBase0` for scope). -/
def pyIntBase0 (s : String) : Option ℤ :=
  match s.data with
  | '+' :: rest => parseUnsignedBase0 rest
  | '-' :: rest => (parseUnsignedBase0 rest).map Neg.neg
  | rest => parseUnsignedBase0 rest

/-- Models Python `int(s)` (default base 10): optional sign followed by
decimal digits; leading zeros are allowed here. -/
def pyIntBase10 (s : String) : Option ℤ :=
  match s.data with
  | '+' :: rest => (parseDigits 10 rest).map Int.ofNat
  | '-' :: rest => (parseDigits 10 rest).map (fun n => -(n : ℤ))
  | rest => (parseDigits 10 rest).map Int.ofNat

/-- `is_int(value)`: whether Python `int(value)` succeeds on the token. -/
def is_int (value : String) : Bool := (pyIntBase10 value).isSome

/-- The ABI-alias entries of the `REGISTERS` dict. -/
def regAliases : List (String × ℤ) :=
  [("zero", 0), ("ra", 1), ("sp", 2), ("gp", 3), ("tp", 4),
   ("t0", 5), ("t1", 6), ("t2", 7), ("s0", 8), ("fp", 8), ("s1", 9),
   ("a0", 10), ("a1", 11), ("a2", 12), ("a3", 13), ("a4", 14), ("a5", 15),
   ("a6", 16), ("a7", 17), ("s2", 18), ("s3", 19), ("s4", 20), ("s5", 21),
   ("s6", 22), ("s7", 23), ("s8", 24), ("s9", 25), ("s10", 26), ("s11", 27),
   ("t3", 28), ("t4", 29), ("t5", 30), ("t6", 31)]

/-- The string-keyed entries of the `REGISTERS` dict: numeric strings
`"0"…"31"`, names `"x0"…"x31"`, and the ABI aliases. -/
def REGISTERS_str : List (String × ℤ) :=
  ((List.range 32).map fun i => (toString i, (i : ℤ))) ++
  ((List.range 32).map fun i => ("x" ++ toString i, (i : ℤ))) ++ regAliases

/-- Lookup of an int key in the `REGISTERS` dict (keys `0…31` map to
themselves). -/
def regByInt (i : ℤ) : Option ℤ := if 0 ≤ i ∧ i ≤ 31 then some i else none

/-- `lookup_register(reg, compressed)`: first try `int(reg, base=0)`
(failures are swallowed), then look the result up in `REGISTERS`
(`KeyError` becomes a `ValueError`), then apply the compressed-register
restriction to `x8..x15` and rebase to 3 bits. -/
def lookup_register (reg : PyScalar) (compressed : Bool) : Except PyError ℤ := do
  let reg : PyScalar :=
    match reg with
    | .str s => match pyIntBase0 s with
      | some n => .int n
      | none => .str s
    | .int n => .int n
  let r? : Option ℤ :=
    match reg with
    | .int n => regByInt n
    | .str s => REGISTERS_str.lookup s
  match r? with
  | none => throw (.valueError "register must be a valid integer, name, or alias")
  | some r =>
    if compressed then
      if r < 8 ∨ r > 15 then
        throw (.valueError "compressed register must be between 8 and 15")
      else
        return r - 8
    else
      return r

/-- The two constraint shapes produced by `constraint_not` / `constraint_bit`. -/
inductive Constraint where
  | cnot (field : String) (value : ℤ)
  | cbit (field : String) (bit : ℕ) (value : ℤ)
deriving DecidableEq, Repr

/-- Run one constraint against the keyword arguments it receives. -/
def runConstraint (kwargs : List (String × ℤ)) : Constraint → Except PyError Unit
  | .cnot f v =>
    match kwargs.lookup f with
    | none => throw (.keyError f)
    | some x => if x = v then throw (.valueError "constraint failed: field must not be value") else .ok ()
  | .cbit f b v =>
    match kwargs.lookup f with
    | none => throw (.keyError f)
    | some x => if pyAndBit x b ≠ v then throw (.valueError "constraint failed: bit of field must be value") else .ok ()

/-- `for c in cs or []: c(**kwargs)` -/
def runConstraints (cs : List Constraint) (kwargs : List (String × ℤ)) : Except PyError Unit :=
  match cs with
  | [] => .ok ()
  | c :: rest => do
    runConstraint kwargs c
    runConstraints rest kwargs

def RegRdNotZero : Constraint := .cnot "rd" 0
def RegRs1NotZero : Constraint := .cnot "rs1" 0
def RegRs2NotZero : Constraint := .cnot "rs2" 0
def RegRdRs1NotZero : Constraint := .cnot "rd_rs1" 0
def RegRdRs1NotTwo : Constraint := .cnot "rd_rs1" 2
def ImmNotZero : Constraint := .cnot "imm" 0
def ShamtBit5Zero : Constraint := .cbit "imm" 5 0

/-- Field-extraction idiom `(x >> n) & (2^w - 1)` used by the encoders. -/
def getBits (x : ℤ) (n w : ℕ) : ℤ := pyAndMask (pyShr x n) w

/-- `r_type(rd, rs1, rs2, *, opcode, funct3, funct7)` -/
def r_type (rd rs1 rs2 : PyScalar) (opcode funct3 funct7 : ℤ) : Except PyError ℤ := do
  let rd ← lookup_register rd false
  let rs1 ← lookup_register rs1 false
  let rs2 ← lookup_register rs2 false
  return pyOr (pyOr (pyOr (pyOr (pyOr (pyOr 0 opcode) (pyShl rd 7)) (pyShl funct3 12))
    (pyShl rs1 15)) (pyShl rs2 20)) (pyShl funct7 25)

/-- `i_type(rd, rs1, imm, *, opcode, funct3)` -/
def i_type (rd rs1 : PyScalar) (imm : ℤ) (opcode funct3 : ℤ) : Except PyError ℤ := do
  let rd ← lookup_register rd false
  let rs1 ← lookup_register rs1 false
  if imm < -0x800 ∨ imm > 0x7ff then
    throw (.valueError "12-bit immediate must be between -0x800 (-2048) and 0x7ff (2047)")
  let imm := pyAndMask (cUint32 imm) 12
  return pyOr (pyOr (pyOr (pyOr (pyOr 0 opcode) (pyShl rd 7)) (pyShl funct3 12))
    (pyShl rs1 15)) (pyShl imm 20)

/-- `ij_type(rd, rs1, imm, *, opcode, funct3)`: the JALR variation of I. -/
def ij_type (rd rs1 : PyScalar) (imm : ℤ) (opcode funct3 : ℤ) : Except PyError ℤ := do
  let rd ← lookup_register rd false
  let rs1 ← lookup_register rs1 false
  if imm < -0x800 ∨ imm > 0x7ff then
    throw (.valueError "12-bit immediate must be between -0x800 (-2048) and 0x7ff (2047)")
  if imm % 2 ≠ 0 then
    throw (.valueError "12-bit immediate must be a muliple of 2")
  let imm := pyAndMask (cUint32 imm) 12
  return pyOr (pyOr (pyOr (pyOr (pyOr 0 opcode) (pyShl rd 7)) (pyShl funct3 12))
    (pyShl rs1 15)) (pyShl imm 20)

/-- `s_type(rs1, rs2, imm, *, opcode, funct3)` -/
def s_type (rs1 rs2 : PyScalar) (imm : ℤ) (opcode funct3 : ℤ) : Except PyError ℤ := do
  let rs1 ← lookup_register rs1 false
  let rs2 ← lookup_register rs2 false
  if imm < -0x800 ∨ imm > 0x7ff then
    throw (.valueError "12-bit immediate must be between -0x800 (-2048) and 0x7ff (2047)")
  let imm := pyAndMask (cUint32 imm) 12
  let imm_11_5 := getBits imm 5 7
  let imm_4_0 := pyAndMask imm 5
  return pyOr (pyOr (pyOr (pyOr (pyOr (pyOr 0 opcode) (pyShl imm_4_0 7)) (pyShl funct3 12))
    (pyShl rs1 15)) (pyShl rs2 20)) (pyShl imm_11_5 25)

/-- `b_type(rs1, rs2, imm, *, opcode, funct3)` -/
def b_type (rs1 rs2 : PyScalar) (imm : ℤ) (opcode funct3 : ℤ) : Except PyError ℤ := do
  let rs1 ← lookup_register rs1 false
  let rs2 ← lookup_register rs2 false
  if imm < -0x1000 ∨ imm > 0x0fff then
    throw (.valueError "12-bit MO2 immediate must be between -0x1000 (-4096) and 0x0fff (4095)")
  if imm % 2 ≠ 0 then
    throw (.valueError "12-bit MO2 immediate must be a muliple of 2")
  let imm := pyShr imm 1
  let imm := pyAndMask (cUint32 imm) 12
  let imm_12 := getBits imm 11 1
  let imm_11 := getBits imm 10 1
  let imm_10_5 := getBits imm 4 6
  let imm_4_1 := pyAndMask imm 4
  return pyOr (pyOr (pyOr (pyOr (pyOr (pyOr (pyOr (pyOr 0 opcode) (pyShl imm_11 7))
    (pyShl imm_4_1 8)) (pyShl funct3 12)) (pyShl rs1 15)) (pyShl rs2 20))
    (pyShl imm_10_5 25)) (pyShl imm_12 31)

/-- `u_type(rd, imm, *, opcode)` -/
def u_type (rd : PyScalar) (imm : ℤ) (opcode : ℤ) : Except PyError ℤ := do
  let rd ← lookup_register rd false
  if imm < -0x80000 ∨ imm > 0x7ffff then
    throw (.valueError "20-bit immediate must be between -0x80000 (-524288) and 0x7ffff (524287)")
  let imm := pyAndMask (cUint32 imm) 20
  return pyOr (pyOr (pyOr 0 opcode) (pyShl rd 7)) (pyShl imm 12)

/-- `j_type(rd, imm, *, opcode)` -/
def j_type (rd : PyScalar) (imm : ℤ) (opcode : ℤ) : Except PyError ℤ := do
  let rd ← lookup_register rd false
  if imm < -0x100000 ∨ imm > 0x0fffff then
    throw (.valueError "20-bit MO2 immediate must be between -0x100000 (-1048576) and 0x0fffff (1048575)")
  if imm % 2 ≠ 0 then
    throw (.valueError "20-bit MO2 immediate must be a muliple of 2")
  let imm := pyShr imm 1
  let imm := pyAndMask (cUint32 imm) 20
  let imm_20 := getBits imm 19 1
  let imm_19_12 := getBits imm 11 8
  let imm_11 := getBits imm 10 1
  let imm_10_1 := pyAndMask imm 10
  return pyOr (pyOr (pyOr (pyOr (pyOr (pyOr 0 opcode) (pyShl rd 7)) (pyShl imm_19_12 12))
    (pyShl imm_11 20)) (pyShl imm_10_1 21)) (pyShl imm_20 31)

/-- `fence(succ, pred, *, opcode, funct3, rd, rs1, fm)`; the string operands
are converted with `int(_, base=0)` (a failure is an uncaught `ValueError`). -/
def fence (succ pred : PyScalar) (opcode funct3 : ℤ) (rd rs1 : PyScalar) (fm : ℤ) :
    Except PyError ℤ := do
  let succ ← match succ with
    | .int n => pure n
    | .str s => match pyIntBase0 s with
      | some n => pure n
      | none => throw (.valueError "invalid literal for int() with base 0")
  let pred ← match pred with
    | .int n => pure n
    | .str s => match pyIntBase0 s with
      | some n => pure n
      | none => throw (.valueError "invalid literal for int() with base 0")
  if succ < 0 ∨ succ > 15 then
    throw (.valueError "invalid successor value for FENCE instruction")
  if pred < 0 ∨ pred > 15 then
    throw (.valueError "invalid predecessor value for FENCE instruction")
  let imm := pyOr (pyOr (pyShl fm 8) (pyShl pred 4)) succ
  i_type rd rs1 imm opcode funct3

/-- `a_type(rd, rs1, rs2, *, opcode, funct3, funct5, aq, rl)` -/
def a_type (rd rs1 rs2 : PyScalar) (opcode funct3 funct5 : ℤ) (aq rl : PyScalar) :
    Except PyError ℤ := do
  let aq ← match aq with
    | .int n => pure n
    | .str s => match pyIntBase0 s with
      | some n => pure n
      | none => throw (.valueError "invalid literal for int() with base 0")
  let rl ← match rl with
    | .int n => pure n
    | .str s => match pyIntBase0 s with
      | some n => pure n
      | none => throw (.valueError "invalid literal for int() with base 0")
  if aq ≠ 0 ∧ aq ≠ 1 then throw (.valueError "aq must be either 0 or 1")
  if rl ≠ 0 ∧ rl ≠ 1 then throw (.valueError "rl must be either 0 or 1")
  let funct7 := pyOr (pyOr (pyShl funct5 2) (pyShl aq 1)) rl
  r_type rd rs1 rs2 opcode funct3 funct7

/-- `cr_type(rd_rs1, rs2, *, opcode, funct4, cs)` -/
def cr_type (rd_rs1 rs2 : PyScalar) (opcode funct4 : ℤ) (cs : List Constraint) :
    Except PyError ℤ := do
  let rd_rs1 ← lookup_register rd_rs1 false
  let rs2 ← lookup_register rs2 false
  runConstraints cs [("rd_rs1", rd_rs1), ("rs2", rs2)]
  return pyOr (pyOr (pyOr 0 opcode) (pyShl rs2 2)) (pyOr (pyShl rd_rs1 7) (pyShl funct4 12))

/-- `ci_type(rd_rs1, imm, *, opcode, funct3, cs)` -/
def ci_type (rd_rs1 : PyScalar) (imm : ℤ) (opcode funct3 : ℤ) (cs : List Constraint) :
    Except PyError ℤ := do
  let rd_rs1 ← lookup_register rd_rs1 false
  if imm < -32 ∨ imm > 31 then
    throw (.valueError "6-bit immediate must be between -32 (-0x20) and 31 (0x1f)")
  runConstraints cs [("rd_rs1", rd_rs1), ("imm", imm)]
  let imm := pyAndMask (cUint32 imm) 6
  let imm_5 := getBits imm 5 1
  let imm_4_0 := pyAndMask imm 5
  return pyOr (pyOr (pyOr (pyOr 0 opcode) (pyShl imm_4_0 2)) (pyShl rd_rs1 7))
    (pyOr (pyShl imm_5 12) (pyShl funct3 13))

/-- `cia_type(imm, *, opcode, funct3, cs)` (c.addi16sp) -/
def cia_type (imm : ℤ) (opcode funct3 : ℤ) (cs : List Constraint) : Except PyError ℤ := do
  if imm < -512 ∨ imm > 511 then
    throw (.valueError "6-bit MO16 immediate must be between -512 (-0x200) and 511 (0x1ff)")
  if imm % 16 ≠ 0 then
    throw (.valueError "6-bit MO16 immediate must be a multiple of 16")
  runConstraints cs [("imm", imm)]
  let imm := pyShr imm 4
  let imm := pyAndMask (cUint32 imm) 6
  let imm_9 := getBits imm 5 1
  let imm_8_4 := pyAndMask imm 5
  return pyOr (pyOr (pyOr (pyOr 0 opcode) (pyShl imm_8_4 2)) (pyShl 2 7))
    (pyOr (pyShl imm_9 12) (pyShl funct3 13))

/-- `ciu_type(rd_rs1, imm, *, opcode, funct3, cs)` (c.lui) -/
def ciu_type (rd_rs1 : PyScalar) (imm : ℤ) (opcode funct3 : ℤ) (cs : List Constraint) :
    Except PyError ℤ := do
  let rd_rs1 ← lookup_register rd_rs1 false
  if imm < -32 ∨ imm > 31 then
    throw (.valueError "6-bit immediate must be between -32 (-0x20) and 31 (0x1f)")
  runConstraints cs [("rd_rs1", rd_rs1), ("imm", imm)]
  let imm := pyAndMask (cUint32 imm) 6
  let imm_5 := getBits imm 5 1
  let imm_4_0 := pyAndMask imm 5
  return pyOr (pyOr (pyOr (pyOr 0 opcode) (pyShl imm_4_0 2)) (pyShl rd_rs1 7))
    (pyOr (pyShl imm_5 12) (pyShl funct3 13))

/-- `cil_type(rd_rs1, imm, *, opcode, funct3, cs)` (c.lwsp) -/
def cil_type (rd_rs1 : PyScalar) (imm : ℤ) (opcode funct3 : ℤ) (cs : List Constraint) :
    Except PyError ℤ := do
  let rd_rs1 ← lookup_register rd_rs1 false
  if imm < 0 ∨ imm > 255 then
    throw (.valueError "6-bit MO4 unsigned immediate must be between 0 (0x00) and 0xff (255)")
  if imm % 4 ≠ 0 then
    throw (.valueError "6-bit MO4 unsigned immediate must be a multiple of 4")
  runConstraints cs [("rd_rs1", rd_rs1), ("imm", imm)]
  let imm := pyShr imm 2
  let imm := pyAndMask (cUint32 imm) 6
  let imm_7 := getBits imm 5 1
  let imm_6_2 := pyAndMask imm 5
  return pyOr (pyOr (pyOr (pyOr 0 opcode) (pyShl imm_6_2 2)) (pyShl rd_rs1 7))
    (pyOr (pyShl imm_7 12) (pyShl funct3 13))

/-- `css_type(rs2, imm, *, opcode, funct3, cs)` (c.swsp) -/
def css_type (rs2 : PyScalar) (imm : ℤ) (opcode funct3 : ℤ) (cs : List Constraint) :
    Except PyError ℤ := do
  let rs2 ← lookup_register rs2 false
  if imm < 0 ∨ imm > 255 then
    throw (.valueError "6-bit MO4 unsigned immediate must be between 0 (0x00) and 0xff (255)")
  if imm % 4 ≠ 0 then
    throw (.valueError "6-bit MO4 unsigned immediate must be a multiple of 4")
  runConstraints cs [("rs2", rs2), ("imm", imm)]
  let imm := pyShr imm 2
  let imm := pyAndMask (cUint32 imm) 6
  let imm_7_6 := getBits imm 4 2
  let imm_5_2 := pyAndMask imm 4
  return pyOr (pyOr (pyOr (pyOr 0 opcode) (pyShl rs2 2)) (pyShl imm_7_6 7))
    (pyOr (pyShl imm_5_2 9) (pyShl funct3 13))

/-- `ciw_type(rd, imm, *, opcode, funct3, cs)` (c.addi4spn) -/
def ciw_type (rd : PyScalar) (imm : ℤ) (opcode funct3 : ℤ) (cs : List Constraint) :
    Except PyError ℤ := do
  let rd ← lookup_register rd true
  if imm < 0 ∨ imm > 1023 then
    throw (.valueError "8-bit MO4 unsigned immediate must be between 0 (0x00) and 0x3ff (1023)")
  if imm % 4 ≠ 0 then
    throw (.valueError "8-bit MO4 unsigned immediate must be a multiple of 4")
  runConstraints cs [("rd", rd), ("imm", imm)]
  let imm := pyShr imm 2
  let imm := pyAndMask (cUint32 imm) 8
  let imm_9_6 := getBits imm 4 4
  let imm_5_4 := getBits imm 2 2
  let imm_3 := getBits imm 1 1
  let imm_2 := pyAndMask imm 1
  return pyOr (pyOr (pyOr (pyOr (pyOr (pyOr 0 opcode) (pyShl rd 2)) (pyShl imm_3 5))
    (pyShl imm_2 6)) (pyShl imm_9_6 7)) (pyOr (pyShl imm_5_4 11) (pyShl funct3 13))

/-- `cl_type(rd, rs1, imm, *, opcode, funct3, cs)` (c.lw) -/
def cl_type (rd rs1 : PyScalar) (imm : ℤ) (opcode funct3 : ℤ) (cs : List Constraint) :
    Except PyError ℤ := do
  let rd ← lookup_register rd true
  let rs1 ← lookup_register rs1 true
  if imm < 0 ∨ imm > 127 then
    throw (.valueError "5-bit MO4 unsigned immediate must be between 0 (0x00) and 0x7f (127)")
  if imm % 4 ≠ 0 then
    throw (.valueError "5-bit MO4 unsigned immediate must be a multiple of 4")
  runConstraints cs [("rd", rd), ("rs1", rs1), ("imm", imm)]
  let imm := pyShr imm 2
  let imm := pyAndMask (cUint32 imm) 5
  let imm_6 := getBits imm 4 1
  let imm_5_3 := getBits imm 1 3
  let imm_2 := pyAndMask imm 1
  return pyOr (pyOr (pyOr (pyOr (pyOr (pyOr 0 opcode) (pyShl rd 2)) (pyShl imm_6 5))
    (pyShl imm_2 6)) (pyShl rs1 7)) (pyOr (pyShl imm_5_3 10) (pyShl funct3 13))

/-- `cs_type(rs1, rs2, imm, *, opcode, funct3, cs)` (c.sw) -/
def cs_type (rs1 rs2 : PyScalar) (imm : ℤ) (opcode funct3 : ℤ) (cs : List Constraint) :
    Except PyError ℤ := do
  let rs1 ← lookup_register rs1 true
  let rs2 ← lookup_register rs2 true
  if imm < 0 ∨ imm > 127 then
    throw (.valueError "5-bit MO4 unsigned immediate must be between 0 (0x00) and 0x7f (127)")
  if imm % 4 ≠ 0 then
    throw (.valueError "5-bit MO4 unsigned immediate must be a multiple of 4")
  runConstraints cs [("rs1", rs1), ("rs2", rs2), ("imm", imm)]
  let imm := pyShr imm 2
  let imm := pyAndMask (cUint32 imm) 5
  let imm_6 := getBits imm 4 1
  let imm_5_3 := getBits imm 1 3
  let imm_2 := pyAndMask imm 1
  return pyOr (pyOr (pyOr (pyOr (pyOr (pyOr 0 opcode) (pyShl rs2 2)) (pyShl imm_6 5))
    (pyShl imm_2 6)) (pyShl rs1 7)) (pyOr (pyShl imm_5_3 10) (pyShl funct3 13))

/-- `ca_type(rd_rs1, rs2, *, opcode, funct2, funct6, cs)` -/
def ca_type (rd_rs1 rs2 : PyScalar) (opcode funct2 funct6 : ℤ) (cs : List Constraint) :
    Except PyError ℤ := do
  let rd_rs1 ← lookup_register rd_rs1 true
  let rs2 ← lookup_register rs2 true
  runConstraints cs [("rd_rs1", rd_rs1), ("rs2", rs2)]
  return pyOr (pyOr (pyOr (pyOr 0 opcode) (pyShl rs2 2)) (pyShl funct2 5))
    (pyOr (pyShl rd_rs1 7) (pyShl funct6 10))

/-- `cb_type(rs1, imm, *, opcode, funct3, cs)` (c.beqz, c.bnez).
Note: unlike every other immediate-carrying encoder, the source performs
no range or alignment check on `imm` here. -/
def cb_type (rs1 : PyScalar) (imm : ℤ) (opcode funct3 : ℤ) (cs : List Constraint) :
    Except PyError ℤ := do
  let rs1 ← lookup_register rs1 true
  runConstraints cs [("rs1", rs1), ("imm", imm)]
  let imm := pyShr imm 1
  let imm := pyAndMask (cUint32 imm) 8
  let imm_8 := getBits imm 7 1
  let imm_7_6 := getBits imm 5 2
  let imm_5 := getBits imm 4 1
  let imm_4_3 := getBits imm 2 2
  let imm_2_1 := pyAndMask imm 2
  return pyOr (pyOr (pyOr (pyOr (pyOr (pyOr (pyOr (pyOr 0 opcode) (pyShl imm_5 2))
    (pyShl imm_2_1 3)) (pyShl imm_7_6 5)) (pyShl rs1 7)) (pyShl imm_4_3 10))
    (pyShl imm_8 12)) (pyShl funct3 13)

/-- `cbi_type(rd_rs1, imm, *, opcode, funct2, funct3, cs)` (c.srli, c.srai,
c.andi).  Note: no range check on `imm` in the source. -/
def cbi_type (rd_rs1 : PyScalar) (imm : ℤ) (opcode funct2 funct3 : ℤ) (cs : List Constraint) :
    Except PyError ℤ := do
  let rd_rs1 ← lookup_register rd_rs1 true
  runConstraints cs [("rd_rs1", rd_rs1), ("imm", imm)]
  let imm := pyAndMask (cUint32 imm) 6
  let imm_5 := getBits imm 5 1
  let imm_4_0 := pyAndMask imm 5
  return pyOr (pyOr (pyOr (pyOr 0 opcode) (pyShl imm_4_0 2)) (pyShl rd_rs1 7))
    (pyOr (pyShl funct2 10) (pyOr (pyShl imm_5 12) (pyShl funct3 13)))

/-- `cj_type(imm, *, opcode, funct3, cs)` (c.jal, c.j) -/
def cj_type (imm : ℤ) (opcode funct3 : ℤ) (cs : List Constraint) : Except PyError ℤ := do
  if imm < -2048 ∨ imm > 2047 then
    throw (.valueError "11-bit MO2 immediate must be between -0x800 (-2048) and 0x7ff (2047)")
  if imm % 2 ≠ 0 then
    throw (.valueError "11-bit MO2 immediate must be a muliple of 2")
  runConstraints cs [("imm", imm)]
  let imm := pyShr imm 1
  let imm := pyAndMask (cUint32 imm) 11
  let imm_11 := getBits imm 10 1
  let imm_10 := getBits imm 9 1
  let imm_9_8 := getBits imm 7 2
  let imm_7 := getBits imm 6 1
  let imm_6 := getBits imm 5 1
  let imm_5 := getBits imm 4 1
  let imm_4 := getBits imm 3 1
  let imm_3_1 := pyAndMask imm 3
  return pyOr (pyOr (pyOr (pyOr (pyOr (pyOr (pyOr (pyOr (pyOr (pyOr 0 opcode)
    (pyShl imm_5 2)) (pyShl imm_3_1 3)) (pyShl imm_7 6)) (pyShl imm_6 7))
    (pyShl imm_10 8)) (pyShl imm_9_8 9)) (pyShl imm_4 11)) (pyShl imm_11 12))
    (pyShl funct3 13)

/-! The `partial(...)` instruction constants of the RV32IMAC table. -/

def LUI (rd : PyScalar) (imm : ℤ) : Except PyError ℤ := u_type rd imm 0b0110111
def AUIPC (rd : PyScalar) (imm : ℤ) : Except PyError ℤ := u_type rd imm 0b0010111
def JAL (rd : PyScalar) (imm : ℤ) : Except PyError ℤ := j_type rd imm 0b1101111
def JALR (rd rs1 : PyScalar) (imm : ℤ) : Except PyError ℤ := ij_type rd rs1 imm 0b1100111 0b000
def BEQ (rs1 rs2 : PyScalar) (imm : ℤ) : Except PyError ℤ := b_type rs1 rs2 imm 0b1100011 0b000
def BNE (rs1 rs2 : PyScalar) (imm : ℤ) : Except PyError ℤ := b_type rs1 rs2 imm 0b1100011 0b001
def BLT (rs1 rs2 : PyScalar) (imm : ℤ) : Except PyError ℤ := b_type rs1 rs2 imm 0b1100011 0b100
def BGE (rs1 rs2 : PyScalar) (imm : ℤ) : Except PyError ℤ := b_type rs1 rs2 imm 0b1100011 0b101
def BLTU (rs1 rs2 : PyScalar) (imm : ℤ) : Except PyError ℤ := b_type rs1 rs2 imm 0b1100011 0b110
def BGEU (rs1 rs2 : PyScalar) (imm : ℤ) : Except PyError ℤ := b_type rs1 rs2 imm 0b1100011 0b111
def LB (rd rs1 : PyScalar) (imm : ℤ) : Except PyError ℤ := i_type rd rs1 imm 0b0000011 0b000
def LH (rd rs1 : PyScalar) (imm : ℤ) : Except PyError ℤ := i_type rd rs1 imm 0b0000011 0b001
def LW (rd rs1 : PyScalar) (imm : ℤ) : Except PyError ℤ := i_type rd rs1 imm 0b0000011 0b010
def LBU (rd rs1 : PyScalar) (imm : ℤ) : Except PyError ℤ := i_type rd rs1 imm 0b0000011 0b100
def LHU (rd rs1 : PyScalar) (imm : ℤ) : Except PyError ℤ := i_type rd rs1 imm 0b0000011 0b101
def SB (rs1 rs2 : PyScalar) (imm : ℤ) : Except PyError ℤ := s_type rs1 rs2 imm 0b0100011 0b000
def SH (rs1 rs2 : PyScalar) (imm : ℤ) : Except PyError ℤ := s_type rs1 rs2 imm 0b0100011 0b001
def SW (rs1 rs2 : PyScalar) (imm : ℤ) : Except PyError ℤ := s_type rs1 rs2 imm 0b0100011 0b010
def ADDI (rd rs1 : PyScalar) (imm : ℤ) : Except PyError ℤ := i_type rd rs1 imm 0b0010011 0b000
def SLTI (rd rs1 : PyScalar) (imm : ℤ) : Except PyError ℤ := i_type rd rs1 imm 0b0010011 0b010
def SLTIU (rd rs1 : PyScalar) (imm : ℤ) : Except PyError ℤ := i_type rd rs1 imm 0b0010011 0b011
def XORI (rd rs1 : PyScalar) (imm : ℤ) : Except PyError ℤ := i_type rd rs1 imm 0b0010011 0b100
def ORI (rd rs1 : PyScalar) (imm : ℤ) : Except PyError ℤ := i_type rd rs1 imm 0b0010011 0b110
def ANDI (rd rs1 : PyScalar) (imm : ℤ) : Except PyError ℤ := i_type rd rs1 imm 0b0010011 0b111
def SLLI (rd rs1 rs2 : PyScalar) : Except PyError ℤ := r_type rd rs1 rs2 0b0010011 0b001 0b0000000
def SRLI (rd rs1 rs2 : PyScalar) : Except PyError ℤ := r_type rd rs1 rs2 0b0010011 0b101 0b0000000
def SRAI (rd rs1 rs2 : PyScalar) : Except PyError ℤ := r_type rd rs1 rs2 0b0010011 0b101 0b0100000
def ADD (rd rs1 rs2 : PyScalar) : Except PyError ℤ := r_type rd rs1 rs2 0b0110011 0b000 0b0000000
def SUB (rd rs1 rs2 : PyScalar) : Except PyError ℤ := r_type rd rs1 rs2 0b0110011 0b000 0b0100000
def SLL (rd rs1 rs2 : PyScalar) : Except PyError ℤ := r_type rd rs1 rs2 0b0110011 0b001 0b0000000
def SLT (rd rs1 rs2 : PyScalar) : Except PyError ℤ := r_type rd rs1 rs2 0b0110011 0b010 0b0000000
def SLTU (rd rs1 rs2 : PyScalar) : Except PyError ℤ := r_type rd rs1 rs2 0b0110011 0b011 0b0000000
def XOR (rd rs1 rs2 : PyScalar) : Except PyError ℤ := r_type rd rs1 rs2 0b0110011 0b100 0b0000000
def SRL (rd rs1 rs2 : PyScalar) : Except PyError ℤ := r_type rd rs1 rs2 0b0110011 0b101 0b0000000
def SRA (rd rs1 rs2 : PyScalar) : Except PyError ℤ := r_type rd rs1 rs2 0b0110011 0b101 0b0100000
def OR (rd rs1 rs2 : PyScalar) : Except PyError ℤ := r_type rd rs1 rs2 0b0110011 0b110 0b0000000
def AND (rd rs1 rs2 : PyScalar) : Except PyError ℤ := r_type rd rs1 rs2 0b0110011 0b111 0b0000000
def FENCE (succ pred : PyScalar) : Except PyError ℤ :=
  fence succ pred 0b0001111 0b000 (.int 0) (.int 0) 0
def ECALL : Except PyError ℤ := i_type (.int 0) (.int 0) 0 0b1110011 0b000
def EBREAK : Except PyError ℤ := i_type (.int 0) (.int 0) 1 0b1110011 0b000
def MUL (rd rs1 rs2 : PyScalar) : Except PyError ℤ := r_type rd rs1 rs2 0b0110011 0b000 0b0000001
def MULH (rd rs1 rs2 : PyScalar) : Except PyError ℤ := r_type rd rs1 rs2 0b0110011 0b001 0b0000001
def MULHSU (rd rs1 rs2 : PyScalar) : Except PyError ℤ := r_type rd rs1 rs2 0b0110011 0b010 0b0000001
def MULHU (rd rs1 rs2 : PyScalar) : Except PyError ℤ := r_type rd rs1 rs2 0b0110011 0b011 0b0000001
def DIV (rd rs1 rs2 : PyScalar) : Except PyError ℤ := r_type rd rs1 rs2 0b0110011 0b100 0b0000001
def DIVU (rd rs1 rs2 : PyScalar) : Except PyError ℤ := r_type rd rs1 rs2 0b0110011 0b101 0b0000001
def REM (rd rs1 rs2 : PyScalar) : Except PyError ℤ := r_type rd rs1 rs2 0b0110011 0b110 0b0000001
def REMU (rd rs1 rs2 : PyScalar) : Except PyError ℤ := r_type rd rs1 rs2 0b0110011 0b111 0b0000001
def LR_W (rd rs1 : PyScalar) (aq rl : PyScalar) : Except PyError ℤ :=
  a_type rd rs1 (.int 0) 0b0101111 0b010 0b00010 aq rl
def SC_W (rd rs1 rs2 : PyScalar) (aq rl : PyScalar) : Except PyError ℤ :=
  a_type rd rs1 rs2 0b0101111 0b010 0b00011 aq rl
def AMOSWAP_W (rd rs1 rs2 : PyScalar) (aq rl : PyScalar) : Except PyError ℤ :=
  a_type rd rs1 rs2 0b0101111 0b010 0b00001 aq rl
def AMOADD_W (rd rs1 rs2 : PyScalar) (aq rl : PyScalar) : Except PyError ℤ :=
  a_type rd rs1 rs2 0b0101111 0b010 0b00000 aq rl
def AMOXOR_W (rd rs1 rs2 : PyScalar) (aq rl : PyScalar) : Except PyError ℤ :=
  a_type rd rs1 rs2 0b0101111 0b010 0b00100 aq rl
def AMOAND_W (rd rs1 rs2 : PyScalar) (aq rl : PyScalar) : Except PyError ℤ :=
  a_type rd rs1 rs2 0b0101111 0b010 0b01100 aq rl
def AMOOR_W (rd rs1 rs2 : PyScalar) (aq rl : PyScalar) : Except PyError ℤ :=
  a_type rd rs1 rs2 0b0101111 0b010 0b01000 aq rl
def AMOMIN_W (rd rs1 rs2 : PyScalar) (aq rl : PyScalar) : Except PyError ℤ :=
  a_type rd rs1 rs2 0b0101111 0b010 0b10000 aq rl
def AMOMAX_W (rd rs1 rs2 : PyScalar) (aq rl : PyScalar) : Except PyError ℤ :=
  a_type rd rs1 rs2 0b0101111 0b010 0b10100 aq rl
def AMOMINU_W (rd rs1 rs2 : PyScalar) (aq rl : PyScalar) : Except PyError ℤ :=
  a_type rd rs1 rs2 0b0101111 0b010 0b11000 aq rl
def AMOMAXU_W (rd rs1 rs2 : PyScalar) (aq rl : PyScalar) : Except PyError ℤ :=
  a_type rd rs1 rs2 0b0101111 0b010 0b11100 aq rl
def C_ADDI4SPN (rd : PyScalar) (imm : ℤ) : Except PyError ℤ :=
  ciw_type rd imm 0b00 0b000 [ImmNotZero]
def C_LW (rd rs1 : PyScalar) (imm : ℤ) : Except PyError ℤ := cl_type rd rs1 imm 0b00 0b010 []
def C_SW (rs1 rs2 : PyScalar) (imm : ℤ) : Except PyError ℤ := cs_type rs1 rs2 imm 0b00 0b110 []
def C_NOP : Except PyError ℤ := ci_type (.int 0) 0 0b01 0b000 []
def C_ADDI (rd_rs1 : PyScalar) (imm : ℤ) : Except PyError ℤ :=
  ci_type rd_rs1 imm 0b01 0b000 [RegRdRs1NotZero, ImmNotZero]
def C_JAL (imm : ℤ) : Except PyError ℤ := cj_type imm 0b01 0b001 []
def C_LI (rd_rs1 : PyScalar) (imm : ℤ) : Except PyError ℤ :=
  ci_type rd_rs1 imm 0b01 0b010 [RegRdRs1NotZero]
def C_ADDI16SP (imm : ℤ) : Except PyError ℤ := cia_type imm 0b01 0b011 [ImmNotZero]
def C_LUI (rd_rs1 : PyScalar) (imm : ℤ) : Except PyError ℤ :=
  ciu_type rd_rs1 imm 0b01 0b011 [RegRdRs1NotZero, RegRdRs1NotTwo, ImmNotZero]
def C_SRLI (rd_rs1 : PyScalar) (imm : ℤ) : Except PyError ℤ :=
  cbi_type rd_rs1 imm 0b01 0b00 0b100 [ImmNotZero]
def C_SRAI (rd_rs1 : PyScalar) (imm : ℤ) : Except PyError ℤ :=
  cbi_type rd_rs1 imm 0b01 0b01 0b100 [ImmNotZero]
def C_ANDI (rd_rs1 : PyScalar) (imm : ℤ) : Except PyError ℤ :=
  cbi_type rd_rs1 imm 0b01 0b10 0b100 []
def C_SUB (rd_rs1 rs2 : PyScalar) : Except PyError ℤ := ca_type rd_rs1 rs2 0b01 0b00 0b100011 []
def C_XOR (rd_rs1 rs2 : PyScalar) : Except PyError ℤ := ca_type rd_rs1 rs2 0b01 0b01 0b100011 []
def C_OR (rd_rs1 rs2 : PyScalar) : Except PyError ℤ := ca_type rd_rs1 rs2 0b01 0b10 0b100011 []
def C_AND (rd_rs1 rs2 : PyScalar) : Except PyError ℤ := ca_type rd_rs1 rs2 0b01 0b11 0b100011 []
def C_J (imm : ℤ) : Except PyError ℤ := cj_type imm 0b01 0b101 []
def C_BEQZ (rs1 : PyScalar) (imm : ℤ) : Except PyError ℤ := cb_type rs1 imm 0b01 0b110 []
def C_BNEZ (rs1 : PyScalar) (imm : ℤ) : Except PyError ℤ := cb_type rs1 imm 0b01 0b111 []
def C_SLLI (rd_rs1 : PyScalar) (imm : ℤ) : Except PyError ℤ :=
  ci_type rd_rs1 imm 0b10 0b000 [RegRdRs1NotZero, ImmNotZero]
def C_LWSP (rd_rs1 : PyScalar) (imm : ℤ) : Except PyError ℤ :=
  cil_type rd_rs1 imm 0b10 0b010 [RegRdRs1NotZero]
def C_JR (rd_rs1 : PyScalar) : Except PyError ℤ :=
  cr_type rd_rs1 (.int 0) 0b10 0b1000 [RegRdRs1NotZero]
def C_MV (rd_rs1 rs2 : PyScalar) : Except PyError ℤ :=
  cr_type rd_rs1 rs2 0b10 0b1000 [RegRdRs1NotZero, RegRs2NotZero]
def C_EBREAK : Except PyError ℤ := cr_type (.int 0) (.int 0) 0b10 0b1001 []
def C_JALR (rd_rs1 : PyScalar) : Except PyError ℤ :=
  cr_type rd_rs1 (.int 0) 0b10 0b1001 [RegRdRs1NotZero]
def C_ADD (rd_rs1 rs2 : PyScalar) : Except PyError ℤ :=
  cr_type rd_rs1 rs2 0b10 0b1001 [RegRdRs1NotZero, RegRs2NotZero]
def C_SWSP (rs2 : PyScalar) (imm : ℤ) : Except PyError ℤ := css_type rs2 imm 0b10 0b110 []

/-- Decoder for the CB immediate field: reassembles `imm[8:1]` from a CB
encoding and sign-extends (the declared 9-bit, 2-aligned immediate). -/
def cbDecodeImm (code : ℤ) : ℤ :=
  let imm_5 := getBits code 2 1
  let imm_2_1 := getBits code 3 2
  let imm_7_6 := getBits code 5 2
  let imm_4_3 := getBits code 10 2
  let imm_8 := getBits code 12 1
  sign_extend (pyShl imm_8 8 + pyShl imm_7_6 6 + pyShl imm_5 5 + pyShl imm_4_3 3 +
    pyShl imm_2_1 1) 9

/-- Decoder for the CB-immediate (cbi) field: reassembles `imm[5:0]` and
sign-extends (the declared 6-bit immediate). -/
def cbiDecodeImm (code : ℤ) : ℤ :=
  let imm_4_0 := getBits code 2 5
  let imm_5 := getBits code 12 1
  sign_extend (pyShl imm_5 5 + imm_4_0) 6

/-!
## Python `eval` on `Arithmetic` expression strings

`Arithmetic.eval` hands its stored string to Python's built-in `eval` with
an empty builtins table and the environment as locals.  We model `eval` on
the integer fragment the assembler's dialect uses (spec §9 fixes this
grammar): base-0 integer literals, identifiers, parentheses, unary `-`/`~`,
and the left-associative binary operators `|`, `^`, `&`, `<<`, `>>`,
`+`, `-`, `*` with Python's precedence.  Strings outside this fragment
are reported as a syntax failure; an unknown identifier is a `NameError`;
a negative shift count is a `ValueError` — exactly Python's behaviour on
the fragment.
-/

/-- Tokens of the modelled Python expression language. -/
inductive ExprTok where
  | num (n : ℤ)
  | id (s : String)
  | sym (s : String)
deriving DecidableEq, Repr

def isIdentStart (c : Char) : Bool := c.isAlpha || c = '_'
def isIdentChar (c : Char) : Bool := c.isAlphanum || c = '_'

/-- Lex an expression string into tokens (`none` = Python `SyntaxError`). -/
def lexExpr : ℕ → List Char → Option (List ExprTok)
  | 0, _ => none
  | _, [] => some []
  | fuel + 1, c :: rest =>
    if c = ' ' then lexExpr fuel rest
    else if isIdentStart c then
      let chunk := c :: rest.takeWhile isIdentChar
      (lexExpr fuel (rest.dropWhile isIdentChar)).map (ExprTok.id ⟨chunk⟩ :: ·)
    else if c.isDigit then
      let chunk := c :: rest.takeWhile isIdentChar
      match parseUnsignedBase0 chunk with
      | some n => (lexExpr fuel (rest.dropWhile isIdentChar)).map (ExprTok.num n :: ·)
      | none => none
    else if c = '<' then
      match rest with
      | '<' :: rest' => (lexExpr fuel rest').map (ExprTok.sym "<<" :: ·)
      | _ => none
    else if c = '>' then
      match rest with
      | '>' :: rest' => (lexExpr fuel rest').map (ExprTok.sym ">>" :: ·)
      | _ => none
    else if c = '+' ∨ c = '-' ∨ c = '*' ∨ c = '&' ∨ c = '|' ∨ c = '^' ∨ c = '~' ∨
        c = '(' ∨ c = ')' then
      (lexExpr fuel rest).map (ExprTok.sym (String.singleton c) :: ·)
    else none

/-- AST of the modelled Python expression fragment. -/
inductive AExpr where
  | lit (n : ℤ)
  | var (s : String)
  | unop (op : String) (e : AExpr)
  | binop (op : String) (l r : AExpr)
deriving DecidableEq, Repr

/-- The binary operators at each precedence level, loosest (0) first. -/
def binopsAt (lvl : ℕ) : List String :=
  match lvl with
  | 0 => ["|"]
  | 1 => ["^"]
  | 2 => ["&"]
  | 3 => ["<<", ">>"]
  | 4 => ["+", "-"]
  | 5 => ["*"]
  | _ => []

mutual

/-- Precedence-climbing parser: parse one expression at the given level. -/
def parseLevel (fuel : ℕ) (lvl : ℕ) (toks : List ExprTok) :
    Option (AExpr × List ExprTok) :=
  match fuel with
  | 0 => none
  | fuel + 1 =>
    if lvl ≥ 6 then
      match toks with
      | .num n :: rest => some (.lit n, rest)
      | .id s :: rest => some (.var s, rest)
      | .sym "-" :: rest =>
        (parseLevel fuel 6 rest).map (fun (e, r) => (.unop "-" e, r))
      | .sym "~" :: rest =>
        (parseLevel fuel 6 rest).map (fun (e, r) => (.unop "~" e, r))
      | .sym "(" :: rest =>
        match parseLevel fuel 0 rest with
        | some (e, .sym ")" :: r) => some (e, r)
        | _ => none
      | _ => none
    else
      match parseLevel fuel (lvl + 1) toks with
      | some (l, rest) => parseBinRest fuel lvl l rest
      | none => none

/-- Left-associative continuation for binary operators at one level. -/
def parseBinRest (fuel : ℕ) (lvl : ℕ) (acc : AExpr) (toks : List ExprTok) :
    Option (AExpr × List ExprTok) :=
  match fuel with
  | 0 => none
  | fuel + 1 =>
    match toks with
    | .sym op :: rest =>
      if op ∈ binopsAt lvl then
        match parseLevel fuel (lvl + 1) rest with
        | some (r, rest') => parseBinRest fuel lvl (.binop op acc r) rest'
        | none => none
      else
        some (acc, toks)
    | _ => some (acc, toks)

end

/-- Parse a full expression string (`none` = Python `SyntaxError`). -/
def parseExprString (s : String) : Option AExpr := do
  let toks ← lexExpr (s.length + 1) s.data
  match parseLevel ((toks.length + 1) * 8) 0 toks with
  | some (e, []) => some e
  | _ => none

/-- Evaluation failures inside the modelled Python `eval`. -/
inductive EvalErr where
  /-- `NameError`: unknown identifier -/
  | nameError (name : String)
  /-- `ValueError`: negative shift count -/
  | valueError
deriving DecidableEq, Repr

/-- An evaluation environment: an ordered association list; lookup takes
the first (leftmost) binding, so list append models `ChainMap`. -/
abbrev Env : Type := List (String × ℤ)

/-- Evaluate a parsed Python expression in an environment. -/
def evalAExpr (env : Env) : AExpr → Except EvalErr ℤ
  | .lit n => .ok n
  | .var s =>
    match List.lookup s env with
    | some v => .ok v
    | none => .error (.nameError s)
  | .unop op e => do
    let v ← evalAExpr env e
    match op with
    | "-" => return -v
    | "~" => return -v - 1
    | _ => throw .valueError
  | .binop op l r => do
    let a ← evalAExpr env l
    let b ← evalAExpr env r
    match op with
    | "+" => return a + b
    | "-" => return a - b
    | "*" => return a * b
    | "<<" => if b < 0 then throw .valueError else return pyShl a b.toNat
    | ">>" => if b < 0 then throw .valueError else return pyShr a b.toNat
    | "&" => return Int.land a b
    | "|" => return Int.lor a b
    | "^" => return Int.xor a b
    | _ => throw .valueError

/-- The modelled `eval(expr, {'__builtins__': None}, env)`:
`.error none` is a `SyntaxError`, `.error (some e)` a runtime error. -/
def pyEval (s : String) (env : Env) : Except (Option EvalErr) ℤ :=
  match parseExprString s with
  | none => .error none
  | some ast =>
    match evalAExpr env ast with
    | .ok v => .ok v
    | .error e => .error (some e)

/-!
## Expressions (`Arithmetic`, `Position`, `Offset`, `Hi`, `Lo`)
-/

/-- The `Expr` variants.  `arith` carries the raw expression string, as
`Arithmetic` stores `' '.join(tokens)`. -/
inductive Expr where
  | arith (expr : String)
  | position (reference : String) (expr : Expr)
  | offset (reference : String)
  | hi (expr : Expr)
  | lo (expr : Expr)
deriving DecidableEq, Repr

/-- `Expr.eval(position, env, line)`.

* `Arithmetic.eval` wraps every evaluator failure into an
  `AssemblerError` (a `SyntaxError` becomes "invalid syntax in expr",
  anything else falls to the bare `except` branch, "other error in expr"),
  and would also reject non-integer results (unrepresentable in the
  modelled integer fragment).
* `Position.eval` and `Offset.eval` perform a bare `env[self.reference]`
  dict access: a missing reference raises an uncaught `KeyError`.
* `Hi`/`Lo` apply the relocation to the inner result, propagating inner
  exceptions unchanged. -/
def Expr.eval (position : ℤ) (env : Env) (line : Line) : Expr → Except PyError ℤ
  | .arith expr =>
    match pyEval expr env with
    | .ok v => .ok v
    | .error none => .error (.assemblerError ("invalid syntax in expr: \x22" ++ expr ++ "\x22") line)
    | .error (some _) => .error (.assemblerError ("other error in expr: \x22" ++ expr ++ "\x22") line)
  | .position reference expr => do
    let dest ← match List.lookup reference env with
      | some v => pure v
      | none => throw (.keyError reference)
    let base ← Expr.eval position env line expr
    return base + dest
  | .offset reference => do
    let dest ← match List.lookup reference env with
      | some v => pure v
      | none => throw (.keyError reference)
    return dest - position
  | .hi expr => do
    let value ← Expr.eval position env line expr
    return relocate_hi value
  | .lo expr => do
    let value ← Expr.eval position env line expr
    return relocate_lo value

/-!
## Items

The `Item` class hierarchy as a sum type.  The per-item `Line` (used only
for error reporting) is not carried; see the header note.  An `imm` field
holds an `Expr` until `resolve_immediates` stores the evaluated integer
back into it, so it is modelled as `ImmField`.
-/

/-- An `imm` attribute: an expression before immediate resolution, an
integer afterwards. -/
inductive ImmField where
  | expr (e : Expr)
  | val (n : ℤ)
deriving DecidableEq, Repr

inductive Item where
  | constant (name : String) (expr : Expr)
  | label (name : String)
  | strItem (value : String)
  | sequence (name : String) (values : List String)
  | pack (fmt : String) (imm : ImmField)
  | shorthandPack (name : String) (imm : ImmField)
  | align (alignment : ℤ)
  | blob (data : List ℕ)
  | pseudo (name : String) (args : List String)
  | rtype (name : String) (rd rs1 rs2 : PyScalar)
  | itype (name : String) (rd rs1 : PyScalar) (imm : ImmField) (is_auipc_jump : Bool)
  | ietype (name : String)
  | stype (name : String) (rs1 rs2 : PyScalar) (imm : ImmField)
  | btype (name : String) (rs1 rs2 : PyScalar) (imm : ImmField)
  | utype (name : String) (rd : PyScalar) (imm : ImmField)
  | jtype (name : String) (rd : PyScalar) (imm : ImmField)
  | fenceItem (name : String) (succ pred : PyScalar)
  | atype (name : String) (rd rs1 rs2 : PyScalar) (aq rl : PyScalar)
  | altype (name : String) (rd rs1 : PyScalar) (aq rl : PyScalar)
  | crtype (name : String) (rd_rs1 rs2 : PyScalar)
  | crjtype (name : String) (rd_rs1 : PyScalar)
  | cretype (name : String)
  | citype (name : String) (rd_rs1 : PyScalar) (imm : ImmField)
  | ciatype (name : String) (imm : ImmField)
  | cintype (name : String)
  | csstype (name : String) (rs2 : PyScalar) (imm : ImmField)
  | ciwtype (name : String) (rd : PyScalar) (imm : ImmField)
  | cltype (name : String) (rd rs1 : PyScalar) (imm : ImmField)
  | cstype (name : String) (rs1 rs2 : PyScalar) (imm : ImmField)
  | catype (name : String) (rd_rs1 rs2 : PyScalar)
  | cbtype (name : String) (rs1 : PyScalar) (imm : ImmField)
  | cjtype (name : String) (imm : ImmField)
deriving DecidableEq, Repr

/-- UTF-8 encoding of one character. -/
def utf8Char (c : Char) : List ℕ :=
  let n := c.toNat
  if n < 0x80 then [n]
  else if n < 0x800 then [0xC0 + n / 0x40, 0x80 + n % 0x40]
  else if n < 0x10000 then
    [0xE0 + n / 0x1000, 0x80 + n / 0x40 % 0x40, 0x80 + n % 0x40]
  else
    [0xF0 + n / 0x40000, 0x80 + n / 0x1000 % 0x40, 0x80 + n / 0x40 % 0x40, 0x80 + n % 0x40]

/-- `value.encode('utf-8')` as a byte list. -/
def pyUtf8 (s : String) : List ℕ := s.data.flatMap utf8Char

/-- Standard size of one `struct` format character (the subset the spec
requires; no repeat counts). -/
def structCharSize (c : Char) : Option ℕ :=
  if c = 'B' ∨ c = 'b' then some 1
  else if c = 'H' ∨ c = 'h' then some 2
  else if c = 'I' ∨ c = 'i' ∨ c = 'L' ∨ c = 'l' ∨ c = 'f' then some 4
  else if c = 'Q' ∨ c = 'q' ∨ c = 'd' then some 8
  else none

/-- Split off a byte-order prefix character (`<`, `>`, `=`; standard
sizes).  Formats without a prefix use native mode, which has the same
sizes for the single-character formats this assembler emits. -/
def structStripPrefix (cs : List Char) : List Char :=
  match cs with
  | c :: rest => if c = '<' ∨ c = '>' ∨ c = '=' then rest else cs
  | [] => cs

/-- Models `struct.calcsize(fmt)` on the modelled format subset
(`none` = `struct.error`). -/
def structCalcsize (fmt : String) : Option ℕ :=
  (structStripPrefix fmt.data).foldl
    (fun acc c =>
      match acc, structCharSize c with
      | some n, some s => some (n + s)
      | _, _ => none) (some 0)

/-- Little-endian byte list of the low `n` bytes of a natural number. -/
def leBytes : ℕ → ℕ → List ℕ
  | 0, _ => []
  | n + 1, v => v % 256 :: leBytes n (v / 256)

/-- Pack one integer of `size` bytes (`signed` selects the range check;
`little` the byte order); `none` = `struct.error` (out of range). -/
def structPackInt (size : ℕ) (signed little : Bool) (v : ℤ) : Option (List ℕ) :=
  let ok : Bool :=
    if signed then decide (-(2 ^ (8 * size - 1) : ℤ) ≤ v ∧ v < 2 ^ (8 * size - 1))
    else decide (0 ≤ v ∧ v < 2 ^ (8 * size))
  if ok then
    let bytes := leBytes size (v % 2 ^ (8 * size)).toNat
    some (if little then bytes else bytes.reverse)
  else none

/-- Models `struct.pack(fmt, v)` for a single integer format character
with optional byte-order prefix.  Float formats (`f`/`d`) and non-integer
packing are outside the model (`none`). -/
def structPack (fmt : String) (v : ℤ) : Option (List ℕ) :=
  let cs := fmt.data
  let little := ¬ (cs.head? = some '>')
  match structStripPrefix cs with
  | [c] =>
    if c = 'B' then structPackInt 1 false little v
    else if c = 'b' then structPackInt 1 true little v
    else if c = 'H' then structPackInt 2 false little v
    else if c = 'h' then structPackInt 2 true little v
    else if c = 'I' ∨ c = 'L' then structPackInt 4 false little v
    else if c = 'i' ∨ c = 'l' then structPackInt 4 true little v
    else if c = 'Q' then structPackInt 8 false little v
    else if c = 'q' then structPackInt 8 true little v
    else none
  | _ => none

/-- `Sequence.size` byte width per element (`sizes[self.name]`; an unknown
name raises `KeyError` in the source — modelled as `none`). -/
def seqWidth (name : String) : Option ℕ :=
  if name = "bytes" then some 1
  else if name = "shorts" then some 2
  else if name = "ints" then some 4
  else if name = "longs" then some 4
  else if name = "longlongs" then some 8
  else none

/-- `ShorthandPack.size` byte width (`sizes[self.name]`). -/
def shorthandWidth (name : String) : Option ℕ :=
  if name = "db" then some 1
  else if name = "dh" then some 2
  else if name = "dw" then some 4
  else if name = "dd" then some 8
  else none

/-- `Align.size(position)`: `padding = alignment - position % alignment`,
zero when already aligned.  `Int.fmod` matches Python `%` for negative
alignments too; `alignment = 0` raises `ZeroDivisionError` in Python and
is junk here (no claim touches it). -/
def alignSize (alignment position : ℤ) : ℤ :=
  let padding := alignment - Int.fmod position alignment
  if padding = alignment then 0 else padding

/-- `item.size(position)`.  For the partial Python size methods
(`Sequence`/`Pack`/`ShorthandPack` with an unknown name or format, which
raise), the junk value 0 is returned; no claim reaches those cases. -/
def itemSize (position : ℤ) : Item → ℤ
  | .constant _ _ => 0
  | .label _ => 0
  | .strItem value => (pyUtf8 value).length
  | .sequence name values => ((seqWidth name).getD 0 : ℕ) * values.length
  | .pack fmt _ => ((structCalcsize fmt).getD 0 : ℕ)
  | .shorthandPack name _ => ((shorthandWidth name).getD 0 : ℕ)
  | .align alignment => alignSize alignment position
  | .blob data => data.length
  | .pseudo name _ => if name = "li" ∨ name = "call" ∨ name = "tail" then 8 else 4
  | .rtype _ _ _ _ => 4
  | .itype _ _ _ _ _ => 4
  | .ietype _ => 4
  | .stype _ _ _ _ => 4
  | .btype _ _ _ _ => 4
  | .utype _ _ _ => 4
  | .jtype _ _ _ => 4
  | .fenceItem _ _ _ => 4
  | .atype _ _ _ _ _ _ => 4
  | .altype _ _ _ _ _ => 4
  | .crtype _ _ _ => 2
  | .crjtype _ _ => 2
  | .cretype _ => 2
  | .citype _ _ _ => 2
  | .ciatype _ _ => 2
  | .cintype _ => 2
  | .csstype _ _ _ => 2
  | .ciwtype _ _ _ => 2
  | .cltype _ _ _ _ => 2
  | .cstype _ _ _ _ => 2
  | .catype _ _ _ => 2
  | .cbtype _ _ _ => 2
  | .cjtype _ _ => 2

/-- `isinstance(item, Instruction)` (this includes `PseudoInstruction`). -/
def itemIsInstruction : Item → Bool
  | .pseudo _ _ => true
  | .rtype _ _ _ _ => true
  | .itype _ _ _ _ _ => true
  | .ietype _ => true
  | .stype _ _ _ _ => true
  | .btype _ _ _ _ => true
  | .utype _ _ _ => true
  | .jtype _ _ _ => true
  | .fenceItem _ _ _ => true
  | .atype _ _ _ _ _ _ => true
  | .altype _ _ _ _ _ => true
  | .crtype _ _ _ => true
  | .crjtype _ _ => true
  | .cretype _ => true
  | .citype _ _ _ => true
  | .ciatype _ _ => true
  | .cintype _ => true
  | .csstype _ _ _ => true
  | .ciwtype _ _ _ => true
  | .cltype _ _ _ _ => true
  | .cstype _ _ _ _ => true
  | .catype _ _ _ => true
  | .cbtype _ _ _ => true
  | .cjtype _ _ => true
  | _ => false

/-- `getattr(item, 'name', …)` for the variants that carry a name. -/
def itemName : Item → Option String
  | .constant name _ => some name
  | .label name => some name
  | .sequence name _ => some name
  | .shorthandPack name _ => some name
  | .pseudo name _ => some name
  | .rtype name _ _ _ => some name
  | .itype name _ _ _ _ => some name
  | .ietype name => some name
  | .stype name _ _ _ => some name
  | .btype name _ _ _ => some name
  | .utype name _ _ => some name
  | .jtype name _ _ => some name
  | .fenceItem name _ _ => some name
  | .atype name _ _ _ _ _ => some name
  | .altype name _ _ _ _ => some name
  | .crtype name _ _ => some name
  | .crjtype name _ => some name
  | .cretype name => some name
  | .citype name _ _ => some name
  | .ciatype name _ => some name
  | .cintype name => some name
  | .csstype name _ _ => some name
  | .ciwtype name _ _ => some name
  | .cltype name _ _ _ => some name
  | .cstype name _ _ _ => some name
  | .catype name _ _ => some name
  | .cbtype name _ _ => some name
  | .cjtype name _ => some name
  | _ => none

/-- `getattr(item, 'rd', …)`: the variants with an `rd` attribute. -/
def itemRd : Item → Option PyScalar
  | .rtype _ rd _ _ => some rd
  | .itype _ rd _ _ _ => some rd
  | .utype _ rd _ => some rd
  | .jtype _ rd _ => some rd
  | .atype _ rd _ _ _ _ => some rd
  | .altype _ rd _ _ _ => some rd
  | .ciwtype _ rd _ => some rd
  | .cltype _ rd _ _ => some rd
  | _ => none

/-- `'imm' in item.__dict__`: the `imm` field, when present. -/
def itemImmField : Item → Option ImmField
  | .pack _ imm => some imm
  | .shorthandPack _ imm => some imm
  | .itype _ _ _ imm _ => some imm
  | .stype _ _ _ imm => some imm
  | .btype _ _ _ imm => some imm
  | .utype _ _ imm => some imm
  | .jtype _ _ imm => some imm
  | .citype _ _ imm => some imm
  | .ciatype _ imm => some imm
  | .csstype _ _ imm => some imm
  | .ciwtype _ _ imm => some imm
  | .cltype _ _ _ imm => some imm
  | .cstype _ _ _ imm => some imm
  | .cbtype _ _ imm => some imm
  | .cjtype _ imm => some imm
  | _ => none

/-- Rebuild the item with `imm` replaced by the resolved integer
(`item.__class__(*d.values())` with `d['imm'] = imm`). -/
def setImm (v : ℤ) : Item → Item
  | .pack fmt _ => .pack fmt (.val v)
  | .shorthandPack name _ => .shorthandPack name (.val v)
  | .itype name rd rs1 _ j => .itype name rd rs1 (.val v) j
  | .stype name rs1 rs2 _ => .stype name rs1 rs2 (.val v)
  | .btype name rs1 rs2 _ => .btype name rs1 rs2 (.val v)
  | .utype name rd _ => .utype name rd (.val v)
  | .jtype name rd _ => .jtype name rd (.val v)
  | .citype name rd_rs1 _ => .citype name rd_rs1 (.val v)
  | .ciatype name _ => .ciatype name (.val v)
  | .csstype name rs2 _ => .csstype name rs2 (.val v)
  | .ciwtype name rd _ => .ciwtype name rd (.val v)
  | .cltype name rd rs1 _ => .cltype name rd rs1 (.val v)
  | .cstype name rs1 rs2 _ => .cstype name rs1 rs2 (.val v)
  | .cbtype name rs1 _ => .cbtype name rs1 (.val v)
  | .cjtype name _ => .cjtype name (.val v)
  | item => item

/-- `hasattr(item, 'is_auipc_jump') and item.is_auipc_jump`. -/
def itemAuipc : Item → Bool
  | .itype _ _ _ _ j => j
  | _ => false

/-!
## Parser (`parse_immediate`, `parse_item`)

Tuple-unpacking mismatches raise `ValueError` in Python and `imm[1]` on a
short list raises `IndexError`; both are modelled explicitly.
-/

/-- ASCII lower-casing of one character (all assembler tokens are ASCII). -/
def charLower (c : Char) : Char :=
  if 'A' ≤ c ∧ c ≤ 'Z' then Char.ofNat (c.toNat + 32) else c

/-- `s.lower()` (ASCII). -/
def pyLower (s : String) : String := ⟨s.data.map charLower⟩

/-- `s.endswith(':')` -/
def endsWithColon (s : String) : Bool := s.data.getLast? = some ':'

/-- `name.rstrip(':')` -/
def rstripColon (s : String) : String :=
  ⟨(s.data.reverse.dropWhile (· = ':')).reverse⟩

/-- `' '.join(imm)` -/
def joinTokens (imm : List String) : String := String.intercalate " " imm

/-- `parse_immediate(imm)` worker; the `fuel` argument only serves Lean's
termination (every recursive call passes a strictly shorter list, so
`fuel = length + 1` never runs out). -/
def parseImmediateGo : ℕ → List String → Except PyError Expr
  | 0, _ => throw .indexError
  | _ + 1, [] => throw .indexError
  | fuel + 1, tok0 :: rest =>
    let head := pyLower tok0
    if head = "%position" then
      match rest with
      | [] => throw .indexError
      | t1 :: rest1 =>
        if t1 = "(" then
          match rest1 with
          | [] => throw (.valueError "not enough values to unpack")
          | reference :: rest2 =>
            if rest2 = [] then throw (.valueError "not enough values to unpack")
            else .ok (.position reference (.arith (joinTokens rest2.dropLast)))
        else
          .ok (.position t1 (.arith (joinTokens rest1)))
    else if head = "%offset" then
      match rest with
      | [] => throw .indexError
      | t1 :: rest1 =>
        if t1 = "(" then
          match rest1 with
          | [reference, _] => .ok (.offset reference)
          | _ => throw (.valueError "values to unpack mismatch")
        else
          match rest1 with
          | [] => .ok (.offset t1)
          | _ => throw (.valueError "too many values to unpack")
    else if head = "%hi" then
      match rest with
      | [] => throw .indexError
      | t1 :: rest1 =>
        if t1 = "(" then
          match rest1 with
          | [] => throw (.valueError "not enough values to unpack")
          | _ => do
            let inner ← parseImmediateGo fuel rest1.dropLast
            .ok (.hi inner)
        else do
          let inner ← parseImmediateGo fuel rest
          .ok (.hi inner)
    else if head = "%lo" then
      match rest with
      | [] => throw .indexError
      | t1 :: rest1 =>
        if t1 = "(" then
          match rest1 with
          | [] => throw (.valueError "not enough values to unpack")
          | _ => do
            let inner ← parseImmediateGo fuel rest1.dropLast
            .ok (.lo inner)
        else do
          let inner ← parseImmediateGo fuel rest
          .ok (.lo inner)
    else
      .ok (.arith (joinTokens (tok0 :: rest)))

/-- `parse_immediate(imm)`: recognize `%position`, `%offset`, `%hi`, `%lo`
(optionally parenthesized, nestable); anything else re-joins the tokens
into an `Arithmetic` expression. -/
def parse_immediate (imm : List String) : Except PyError Expr :=
  parseImmediateGo (imm.length + 1) imm

def R_TYPE_NAMES : List String :=
  ["slli", "srli", "srai", "add", "sub", "sll", "slt", "sltu", "xor", "srl",
   "sra", "or", "and", "mul", "mulh", "mulhsu", "mulhu", "div", "divu", "rem", "remu"]
def I_TYPE_NAMES : List String :=
  ["jalr", "lb", "lh", "lw", "lbu", "lhu", "addi", "slti", "sltiu", "xori", "ori", "andi"]
def IE_TYPE_NAMES : List String := ["ecall", "ebreak"]
def S_TYPE_NAMES : List String := ["sb", "sh", "sw"]
def B_TYPE_NAMES : List String := ["beq", "bne", "blt", "bge", "bltu", "bgeu"]
def U_TYPE_NAMES : List String := ["lui", "auipc"]
def J_TYPE_NAMES : List String := ["jal"]
def FENCE_NAMES : List String := ["fence"]
def A_TYPE_NAMES : List String :=
  ["sc.w", "amoswap.w", "amoadd.w", "amoxor.w", "amoand.w", "amoor.w",
   "amomin.w", "amomax.w", "amominu.w", "amomaxu.w"]
def AL_TYPE_NAMES : List String := ["lr.w"]
def CR_TYPE_NAMES : List String := ["c.mv", "c.add"]
def CRJ_TYPE_NAMES : List String := ["c.jr", "c.jalr"]
def CRE_TYPE_NAMES : List String := ["c.ebreak"]
def CI_TYPE_NAMES : List String := ["c.addi", "c.li", "c.lui", "c.slli", "c.lwsp"]
def CIA_TYPE_NAMES : List String := ["c.addi16sp"]
def CIN_TYPE_NAMES : List String := ["c.nop"]
def CSS_TYPE_NAMES : List String := ["c.swsp"]
def CIW_TYPE_NAMES : List String := ["c.addi4spn"]
def CL_TYPE_NAMES : List String := ["c.lw"]
def CS_TYPE_NAMES : List String := ["c.sw"]
def CA_TYPE_NAMES : List String := ["c.sub", "c.xor", "c.or", "c.and"]
def CB_TYPE_NAMES : List String := ["c.srli", "c.srai", "c.andi", "c.beqz", "c.bnez"]
def CJ_TYPE_NAMES : List String := ["c.jal", "c.j"]
def PSEUDO_NAMES : List String :=
  ["nop", "li", "mv", "not", "neg", "seqz", "snez", "sltz", "sgtz",
   "beqz", "bnez", "blez", "bgez", "bltz", "bgtz",
   "bgt", "ble", "bgtu", "bleu",
   "j", "jal", "jr", "jalr", "ret", "call", "tail", "fence"]
def BASE_OFFSET_NAMES : List String :=
  ["jalr", "lb", "lh", "lw", "lbu", "lhu", "sb", "sh", "sw", "c.lw", "c.sw"]
def SEQUENCE_NAMES : List String := ["bytes", "shorts", "ints", "longs", "longlongs"]
def SHORTHAND_NAMES : List String := ["db", "dh", "dw", "dd"]

/-- `parse_item(line_tokens)`: classify one token list into an `Item`,
dispatching on the lowercase head token in the source's branch order. -/
def parse_item (line : Line) (tokens : List String) : Except PyError Item := do
  let tok0 ← match tokens.head? with
    | some t => pure t
    | none => throw .indexError
  let head := pyLower tok0
  -- labels
  if tokens.length = 1 ∧ endsWithColon tok0 then
    return .label (rstripColon tok0)
  -- constants
  else if tokens.length ≥ 3 ∧ tokens.get? 1 = some "=" then
    match tokens with
    | name :: _ :: imm =>
      let imm ← parse_immediate imm
      return .constant name imm
    | _ => throw (.valueError "unreachable")
  -- strings
  else if head = "string" then
    match tokens with
    | [_, value] => return .strItem value
    | _ => throw (.valueError "values to unpack mismatch")
  -- sequences
  else if head ∈ SEQUENCE_NAMES then
    match tokens with
    | name :: values => return .sequence (pyLower name) values
    | _ => throw (.valueError "unreachable")
  -- packs
  else if head = "pack" then
    match tokens with
    | _ :: fmt :: imm =>
      let imm ← parse_immediate imm
      return .pack fmt (.expr imm)
    | _ => throw (.valueError "not enough values to unpack")
  -- shorthand packs
  else if head ∈ SHORTHAND_NAMES then
    match tokens with
    | name :: imm =>
      let imm ← parse_immediate imm
      return .shorthandPack name (.expr imm)
    | _ => throw (.valueError "unreachable")
  -- aligns
  else if head = "align" then
    match tokens with
    | [_, alignment] =>
      match pyIntBase0 alignment with
      | some a => return .align a
      | none => throw (.assemblerError "alignment must be an integer" line)
    | _ => throw (.valueError "values to unpack mismatch")
  -- r-type instructions
  else if head ∈ R_TYPE_NAMES then
    match tokens with
    | [name, rd, rs1, rs2] =>
      return .rtype (pyLower name) (.str rd) (.str rs1) (.str rs2)
    | _ => throw (.assemblerError "r-type instructions require exactly 3 args" line)
  -- i-type instructions
  else if head ∈ I_TYPE_NAMES then
    match tokens with
    | [name, arg] => return .pseudo (pyLower name) [arg]
    | _ =>
      if head ∈ BASE_OFFSET_NAMES ∧ tokens.get? 3 = some "(" then
        match tokens with
        | [name, rd, offset, _, rs1, _] => do
          let imm ← parse_immediate [offset]
          return .itype (pyLower name) (.str rd) (.str rs1) (.expr imm) false
        | _ => throw (.valueError "values to unpack mismatch")
      else if head ∈ BASE_OFFSET_NAMES ∧ tokens.get? 3 = none then
        -- `tokens[3]` raises IndexError before the unpacking
        throw .indexError
      else
        match tokens with
        | name :: rd :: rs1 :: imm => do
          let imm ← parse_immediate imm
          return .itype (pyLower name) (.str rd) (.str rs1) (.expr imm) false
        | _ => throw (.valueError "not enough values to unpack")
  -- ie-type instructions
  else if head ∈ IE_TYPE_NAMES then
    match tokens with
    | [name] => return .ietype (pyLower name)
    | _ => throw (.valueError "too many values to unpack")
  -- s-type instructions (all are base offset insts)
  else if head ∈ S_TYPE_NAMES then
    if tokens.get? 3 = some "(" then
      match tokens with
      | [name, rs2, offset, _, rs1, _] => do
        let imm ← parse_immediate [offset]
        return .stype (pyLower name) (.str rs1) (.str rs2) (.expr imm)
      | _ => throw (.valueError "values to unpack mismatch")
    else if tokens.get? 3 = none then
      throw .indexError
    else
      match tokens with
      | name :: rs1 :: rs2 :: imm => do
        let imm ← parse_immediate imm
        return .stype (pyLower name) (.str rs1) (.str rs2) (.expr imm)
      | _ => throw (.valueError "not enough values to unpack")
  -- b-type instructions
  else if head ∈ B_TYPE_NAMES then
    match tokens with
    | [name, rs1, rs2, reference] => do
      let imm ← if is_int reference then
          parse_immediate [reference]
        else
          parse_immediate ["%offset", reference]
      return .btype (pyLower name) (.str rs1) (.str rs2) (.expr imm)
    | _ => throw (.assemblerError "b-type instructions require 3 args" line)
  -- u-type instructions
  else if head ∈ U_TYPE_NAMES then
    match tokens with
    | name :: rd :: imm => do
      let imm ← parse_immediate imm
      return .utype (pyLower name) (.str rd) (.expr imm)
    | _ => throw (.valueError "not enough values to unpack")
  -- j-type instructions
  else if head ∈ J_TYPE_NAMES then
    match tokens with
    | [name, arg] => return .pseudo (pyLower name) [arg]
    | [name, rd, reference] => do
      let imm ← if is_int reference then
          parse_immediate [reference]
        else
          parse_immediate ["%offset", reference]
      return .jtype (pyLower name) (.str rd) (.expr imm)
    | _ => throw (.assemblerError "j-type instructions require 1 or 2 args" line)
  -- fence instructions
  else if head ∈ FENCE_NAMES then
    match tokens with
    | [name] => return .pseudo (pyLower name) []
    | [name, succ, pred] => return .fenceItem (pyLower name) (.str succ) (.str pred)
    | _ => throw (.assemblerError "fence instructions require 0 or 2 args" line)
  -- a-type instructions
  else if head ∈ A_TYPE_NAMES then
    match tokens with
    | name :: rd :: rs1 :: rs2 :: ordering =>
      match ordering with
      | [] => return .atype (pyLower name) (.str rd) (.str rs1) (.str rs2) (.int 0) (.int 0)
      | [aq, rl] => return .atype (pyLower name) (.str rd) (.str rs1) (.str rs2) (.str aq) (.str rl)
      | _ => throw (.assemblerError "invalid syntax for atomic instruction" line)
    | _ => throw (.valueError "not enough values to unpack")
  -- al-type instructions
  else if head ∈ AL_TYPE_NAMES then
    match tokens with
    | name :: rd :: rs1 :: ordering =>
      match ordering with
      | [] => return .altype (pyLower name) (.str rd) (.str rs1) (.int 0) (.int 0)
      | [aq, rl] => return .altype (pyLower name) (.str rd) (.str rs1) (.str aq) (.str rl)
      | _ => throw (.assemblerError "invalid syntax for atomic instruction" line)
    | _ => throw (.valueError "not enough values to unpack")
  -- cr-type instructions
  else if head ∈ CR_TYPE_NAMES then
    match tokens with
    | [name, rd_rs1, rs2] => return .crtype (pyLower name) (.str rd_rs1) (.str rs2)
    | _ => throw (.assemblerError "cr-type instructions require exactly 2 args" line)
  -- crj-type instructions
  else if head ∈ CRJ_TYPE_NAMES then
    match tokens with
    | [name, rd_rs1] => return .crjtype (pyLower name) (.str rd_rs1)
    | _ => throw (.assemblerError "crj-type instructions require exactly 1 arg" line)
  -- cre-type instructions
  else if head ∈ CRE_TYPE_NAMES then
    match tokens with
    | [name] => return .cretype (pyLower name)
    | _ => throw (.assemblerError "cre-type instructions require no args" line)
  -- ci-type instructions
  else if head ∈ CI_TYPE_NAMES then
    match tokens with
    | name :: rd_rs1 :: imm => do
      let imm ← parse_immediate imm
      return .citype (pyLower name) (.str rd_rs1) (.expr imm)
    | _ => throw (.valueError "not enough values to unpack")
  -- cia-type instructions
  else if head ∈ CIA_TYPE_NAMES then
    match tokens with
    | name :: imm => do
      let imm ← parse_immediate imm
      return .ciatype (pyLower name) (.expr imm)
    | _ => throw (.valueError "unreachable")
  -- cin-type instructions
  else if head ∈ CIN_TYPE_NAMES then
    match tokens with
    | [name] => return .cintype (pyLower name)
    | _ => throw (.assemblerError "cin-type instructions require no args" line)
  -- css-type instructions
  else if head ∈ CSS_TYPE_NAMES then
    match tokens with
    | name :: rs2 :: imm => do
      let imm ← parse_immediate imm
      return .csstype (pyLower name) (.str rs2) (.expr imm)
    | _ => throw (.valueError "not enough values to unpack")
  -- ciw-type instructions
  else if head ∈ CIW_TYPE_NAMES then
    match tokens with
    | name :: rd :: imm => do
      let imm ← parse_immediate imm
      return .ciwtype (pyLower name) (.str rd) (.expr imm)
    | _ => throw (.valueError "not enough values to unpack")
  -- cl-type instructions (all are base offset insts)
  else if head ∈ CL_TYPE_NAMES then
    if tokens.get? 3 = some "(" then
      match tokens with
      | [name, rd, offset, _, rs1, _] => do
        let imm ← parse_immediate [offset]
        return .cltype (pyLower name) (.str rd) (.str rs1) (.expr imm)
      | _ => throw (.valueError "values to unpack mismatch")
    else if tokens.get? 3 = none then
      throw .indexError
    else
      match tokens with
      | name :: rd :: rs1 :: imm => do
        let imm ← parse_immediate imm
        return .cltype (pyLower name) (.str rd) (.str rs1) (.expr imm)
      | _ => throw (.valueError "not enough values to unpack")
  -- cs-type instructions (all are base offset insts)
  else if head ∈ CS_TYPE_NAMES then
    if tokens.get? 3 = some "(" then
      match tokens with
      | [name, rs2, offset, _, rs1, _] => do
        let imm ← parse_immediate [offset]
        return .cstype (pyLower name) (.str rs1) (.str rs2) (.expr imm)
      | _ => throw (.valueError "values to unpack mismatch")
    else if tokens.get? 3 = none then
      throw .indexError
    else
      match tokens with
      | name :: rs1 :: rs2 :: imm => do
        let imm ← parse_immediate imm
        return .cstype (pyLower name) (.str rs1) (.str rs2) (.expr imm)
      | _ => throw (.valueError "not enough values to unpack")
  -- ca-type instructions
  else if head ∈ CA_TYPE_NAMES then
    match tokens with
    | [name, rd_rs1, rs2] => return .catype (pyLower name) (.str rd_rs1) (.str rs2)
    | _ => throw (.assemblerError "ca-type instructions require exactly 2 args" line)
  -- cb-type instructions
  else if head ∈ CB_TYPE_NAMES then
    match tokens with
    | name :: rs1 :: imm => do
      let imm ← parse_immediate imm
      return .cbtype (pyLower name) (.str rs1) (.expr imm)
    | _ => throw (.valueError "not enough values to unpack")
  -- cj-type instructions
  else if head ∈ CJ_TYPE_NAMES then
    match tokens with
    | name :: imm => do
      let imm ← parse_immediate imm
      return .cjtype (pyLower name) (.expr imm)
    | _ => throw (.valueError "unreachable")
  -- pseudo instructions
  else if head ∈ PSEUDO_NAMES then
    match tokens with
    | name :: args => return .pseudo (pyLower name) args
    | _ => throw (.valueError "unreachable")
  else
    throw (.assemblerError "invalid syntax" line)

/-!
## Lowering passes

Each pass is a pure recursion over the item list; the source's in-place
mutation of the `labels` dict is modelled by returning the updated
environment.
-/

/-- A Python value appearing in `item.args()`: an int (resolved
immediates, rebased registers), a str (tokens), or an `Expr` object (an
unresolved immediate). -/
inductive PyObj where
  | int (n : ℤ)
  | str (s : String)
  | exprObj (e : Expr)
deriving DecidableEq, Repr

def scalarObj : PyScalar → PyObj
  | .int n => .int n
  | .str s => .str s

def immFieldObj : ImmField → PyObj
  | .val n => .int n
  | .expr e => .exprObj e

/-- `item.args()` for each concrete (non-pseudo) instruction variant. -/
def argsOf : Item → List PyObj
  | .rtype _ rd rs1 rs2 => [scalarObj rd, scalarObj rs1, scalarObj rs2]
  | .itype _ rd rs1 imm _ => [scalarObj rd, scalarObj rs1, immFieldObj imm]
  | .ietype _ => []
  | .stype _ rs1 rs2 imm => [scalarObj rs1, scalarObj rs2, immFieldObj imm]
  | .btype _ rs1 rs2 imm => [scalarObj rs1, scalarObj rs2, immFieldObj imm]
  | .utype _ rd imm => [scalarObj rd, immFieldObj imm]
  | .jtype _ rd imm => [scalarObj rd, immFieldObj imm]
  | .fenceItem _ succ pred => [scalarObj succ, scalarObj pred]
  | .atype _ rd rs1 rs2 aq rl =>
    [scalarObj rd, scalarObj rs1, scalarObj rs2, scalarObj aq, scalarObj rl]
  | .altype _ rd rs1 aq rl => [scalarObj rd, scalarObj rs1, scalarObj aq, scalarObj rl]
  | .crtype _ rd_rs1 rs2 => [scalarObj rd_rs1, scalarObj rs2]
  | .crjtype _ rd_rs1 => [scalarObj rd_rs1]
  | .cretype _ => []
  | .citype _ rd_rs1 imm => [scalarObj rd_rs1, immFieldObj imm]
  | .ciatype _ imm => [immFieldObj imm]
  | .cintype _ => []
  | .csstype _ rs2 imm => [scalarObj rs2, immFieldObj imm]
  | .ciwtype _ rd imm => [scalarObj rd, immFieldObj imm]
  | .cltype _ rd rs1 imm => [scalarObj rd, scalarObj rs1, immFieldObj imm]
  | .cstype _ rs1 rs2 imm => [scalarObj rs1, scalarObj rs2, immFieldObj imm]
  | .catype _ rd_rs1 rs2 => [scalarObj rd_rs1, scalarObj rs2]
  | .cbtype _ rs1 imm => [scalarObj rs1, immFieldObj imm]
  | .cjtype _ imm => [immFieldObj imm]
  | _ => []

/-- A register argument handed to `lookup_register`: an `Expr` object is
not a valid dict key among `REGISTERS`' keys, giving the encoder's
`ValueError`. -/
def asRegScalar : PyObj → Except PyError PyScalar
  | .int n => .ok (.int n)
  | .str s => .ok (.str s)
  | .exprObj _ => throw (.valueError "register must be a valid integer, name, or alias")

/-- An immediate argument: comparing a non-int against the range bounds
raises `TypeError` in Python. -/
def asImmInt : PyObj → Except PyError ℤ
  | .int n => .ok n
  | _ => throw (.typeError "not supported between instances")

/-- A fence/atomic ordering operand (`int(x, base=0)` on an `Expr` object
raises `TypeError`). -/
def asOrdScalar : PyObj → Except PyError PyScalar
  | .int n => .ok (.int n)
  | .str s => .ok (.str s)
  | .exprObj _ => throw (.typeError "int() argument must be a string or a number")

def apply3R (f : PyScalar → PyScalar → PyScalar → Except PyError ℤ) (args : List PyObj) :
    Except PyError ℤ :=
  match args with
  | [a, b, c] => do f (← asRegScalar a) (← asRegScalar b) (← asRegScalar c)
  | _ => throw (.typeError "argument count mismatch")

def apply2R1I (f : PyScalar → PyScalar → ℤ → Except PyError ℤ) (args : List PyObj) :
    Except PyError ℤ :=
  match args with
  | [a, b, c] => do
    let ra ← asRegScalar a
    let rb ← asRegScalar b
    f ra rb (← asImmInt c)
  | _ => throw (.typeError "argument count mismatch")

def apply1R1I (f : PyScalar → ℤ → Except PyError ℤ) (args : List PyObj) :
    Except PyError ℤ :=
  match args with
  | [a, b] => do
    let ra ← asRegScalar a
    f ra (← asImmInt b)
  | _ => throw (.typeError "argument count mismatch")

def apply2R (f : PyScalar → PyScalar → Except PyError ℤ) (args : List PyObj) :
    Except PyError ℤ :=
  match args with
  | [a, b] => do f (← asRegScalar a) (← asRegScalar b)
  | _ => throw (.typeError "argument count mismatch")

def apply1R (f : PyScalar → Except PyError ℤ) (args : List PyObj) : Except PyError ℤ :=
  match args with
  | [a] => do f (← asRegScalar a)
  | _ => throw (.typeError "argument count mismatch")

def apply1I (f : ℤ → Except PyError ℤ) (args : List PyObj) : Except PyError ℤ :=
  match args with
  | [a] => do f (← asImmInt a)
  | _ => throw (.typeError "argument count mismatch")

def apply0 (f : Except PyError ℤ) (args : List PyObj) : Except PyError ℤ :=
  match args with
  | [] => f
  | _ => throw (.typeError "argument count mismatch")

def applyFence (f : PyScalar → PyScalar → Except PyError ℤ) (args : List PyObj) :
    Except PyError ℤ :=
  match args with
  | [a, b] => do f (← asOrdScalar a) (← asOrdScalar b)
  | _ => throw (.typeError "argument count mismatch")

def applyA5 (f : PyScalar → PyScalar → PyScalar → PyScalar → PyScalar → Except PyError ℤ)
    (args : List PyObj) : Except PyError ℤ :=
  match args with
  | [a, b, c, aq, rl] => do
    let ra ← asRegScalar a
    let rb ← asRegScalar b
    let rc ← asRegScalar c
    f ra rb rc (← asOrdScalar aq) (← asOrdScalar rl)
  | _ => throw (.typeError "argument count mismatch")

def applyA4 (f : PyScalar → PyScalar → PyScalar → PyScalar → Except PyError ℤ)
    (args : List PyObj) : Except PyError ℤ :=
  match args with
  | [a, b, aq, rl] => do
    let ra ← asRegScalar a
    let rb ← asRegScalar b
    f ra rb (← asOrdScalar aq) (← asOrdScalar rl)
  | _ => throw (.typeError "argument count mismatch")

/-- `INSTRUCTIONS[name](*item.args())` fused into one dispatch (for the
atomic instructions, `resolve_instructions` splits off `aq`/`rl` and
passes them as keyword arguments; `applyA5`/`applyA4` reflect that). -/
def INSTRUCTIONS_apply (name : String) (args : List PyObj) : Except PyError ℤ :=
  if name = "slli" then apply3R SLLI args
  else if name = "srli" then apply3R SRLI args
  else if name = "srai" then apply3R SRAI args
  else if name = "add" then apply3R ADD args
  else if name = "sub" then apply3R SUB args
  else if name = "sll" then apply3R SLL args
  else if name = "slt" then apply3R SLT args
  else if name = "sltu" then apply3R SLTU args
  else if name = "xor" then apply3R XOR args
  else if name = "srl" then apply3R SRL args
  else if name = "sra" then apply3R SRA args
  else if name = "or" then apply3R OR args
  else if name = "and" then apply3R AND args
  else if name = "mul" then apply3R MUL args
  else if name = "mulh" then apply3R MULH args
  else if name = "mulhsu" then apply3R MULHSU args
  else if name = "mulhu" then apply3R MULHU args
  else if name = "div" then apply3R DIV args
  else if name = "divu" then apply3R DIVU args
  else if name = "rem" then apply3R REM args
  else if name = "remu" then apply3R REMU args
  else if name = "jalr" then apply2R1I JALR args
  else if name = "lb" then apply2R1I LB args
  else if name = "lh" then apply2R1I LH args
  else if name = "lw" then apply2R1I LW args
  else if name = "lbu" then apply2R1I LBU args
  else if name = "lhu" then apply2R1I LHU args
  else if name = "addi" then apply2R1I ADDI args
  else if name = "slti" then apply2R1I SLTI args
  else if name = "sltiu" then apply2R1I SLTIU args
  else if name = "xori" then apply2R1I XORI args
  else if name = "ori" then apply2R1I ORI args
  else if name = "andi" then apply2R1I ANDI args
  else if name = "ecall" then apply0 ECALL args
  else if name = "ebreak" then apply0 EBREAK args
  else if name = "sb" then apply2R1I SB args
  else if name = "sh" then apply2R1I SH args
  else if name = "sw" then apply2R1I SW args
  else if name = "beq" then apply2R1I BEQ args
  else if name = "bne" then apply2R1I BNE args
  else if name = "blt" then apply2R1I BLT args
  else if name = "bge" then apply2R1I BGE args
  else if name = "bltu" then apply2R1I BLTU args
  else if name = "bgeu" then apply2R1I BGEU args
  else if name = "lui" then apply1R1I LUI args
  else if name = "auipc" then apply1R1I AUIPC args
  else if name = "jal" then apply1R1I JAL args
  else if name = "fence" then applyFence FENCE args
  else if name = "sc.w" then applyA5 SC_W args
  else if name = "amoswap.w" then applyA5 AMOSWAP_W args
  else if name = "amoadd.w" then applyA5 AMOADD_W args
  else if name = "amoxor.w" then applyA5 AMOXOR_W args
  else if name = "amoand.w" then applyA5 AMOAND_W args
  else if name = "amoor.w" then applyA5 AMOOR_W args
  else if name = "amomin.w" then applyA5 AMOMIN_W args
  else if name = "amomax.w" then applyA5 AMOMAX_W args
  else if name = "amominu.w" then applyA5 AMOMINU_W args
  else if name = "amomaxu.w" then applyA5 AMOMAXU_W args
  else if name = "lr.w" then applyA4 LR_W args
  else if name = "c.mv" then apply2R C_MV args
  else if name = "c.add" then apply2R C_ADD args
  else if name = "c.jr" then apply1R C_JR args
  else if name = "c.jalr" then apply1R C_JALR args
  else if name = "c.ebreak" then apply0 C_EBREAK args
  else if name = "c.addi" then apply1R1I C_ADDI args
  else if name = "c.li" then apply1R1I C_LI args
  else if name = "c.lui" then apply1R1I C_LUI args
  else if name = "c.slli" then apply1R1I C_SLLI args
  else if name = "c.lwsp" then apply1R1I C_LWSP args
  else if name = "c.addi16sp" then apply1I C_ADDI16SP args
  else if name = "c.nop" then apply0 C_NOP args
  else if name = "c.swsp" then apply1R1I C_SWSP args
  else if name = "c.addi4spn" then apply1R1I C_ADDI4SPN args
  else if name = "c.lw" then apply2R1I C_LW args
  else if name = "c.sw" then apply2R1I C_SW args
  else if name = "c.sub" then apply2R C_SUB args
  else if name = "c.xor" then apply2R C_XOR args
  else if name = "c.or" then apply2R C_OR args
  else if name = "c.and" then apply2R C_AND args
  else if name = "c.srli" then apply1R1I C_SRLI args
  else if name = "c.srai" then apply1R1I C_SRAI args
  else if name = "c.andi" then apply1R1I C_ANDI args
  else if name = "c.beqz" then apply1R1I C_BEQZ args
  else if name = "c.bnez" then apply1R1I C_BNEZ args
  else if name = "c.jal" then apply1I C_JAL args
  else if name = "c.j" then apply1I C_J args
  else throw (.keyError name)

/-- The key set of the `INSTRUCTIONS` dict. -/
def INSTRUCTIONS_allNames : List String :=
  R_TYPE_NAMES ++ I_TYPE_NAMES ++ IE_TYPE_NAMES ++ S_TYPE_NAMES ++ B_TYPE_NAMES ++
  U_TYPE_NAMES ++ J_TYPE_NAMES ++ FENCE_NAMES ++ A_TYPE_NAMES ++ AL_TYPE_NAMES ++
  CR_TYPE_NAMES ++ CRJ_TYPE_NAMES ++ CRE_TYPE_NAMES ++ CI_TYPE_NAMES ++
  CIA_TYPE_NAMES ++ CIN_TYPE_NAMES ++ CSS_TYPE_NAMES ++ CIW_TYPE_NAMES ++
  CL_TYPE_NAMES ++ CS_TYPE_NAMES ++ CA_TYPE_NAMES ++ CB_TYPE_NAMES ++ CJ_TYPE_NAMES

/-- `struct.pack('<I', code)`: four little-endian bytes. -/
def packLE32 (code : ℤ) : Except PyError (List ℕ) :=
  if code < 0 ∨ code ≥ 2 ^ 32 then throw (.structError "argument out of range")
  else .ok [code.toNat % 256, code.toNat / 256 % 256,
            code.toNat / 65536 % 256, code.toNat / 16777216 % 256]

/-- `resolve_instructions(items)`: every `Instruction` item is encoded via
`INSTRUCTIONS[item.name]` and packed with `struct.pack('<I', code)` —
four bytes for every instruction, compressed ones included.  A
`ValueError` from the encoder is wrapped into an `AssemblerError`. -/
def resolve_instructions : List Item → Except PyError (List Item)
  | [] => .ok []
  | item :: rest => do
    if itemIsInstruction item then
      let name := (itemName item).getD ""
      if name ∈ INSTRUCTIONS_allNames then
        let r : Except PyError ℤ :=
          match item with
          | .pseudo _ _ => .error (.typeError "args tuple is not callable")
          | _ => INSTRUCTIONS_apply name (argsOf item)
        match r with
        | .error (.valueError m) => throw (.assemblerError m dummyLine)
        | .error e => throw e
        | .ok code => do
          let data ← packLE32 code
          let tl ← resolve_instructions rest
          return .blob data :: tl
      else
        throw (.keyError name)
    else do
      let tl ← resolve_instructions rest
      return item :: tl

/-- The label-shrinking loop used by `transform_compressible` and the
`li` branch of `transform_pseudo_instructions`: every label strictly
beyond `position` is moved down by `delta`. -/
def shrinkLabels (labels : Env) (position delta : ℤ) : Env :=
  labels.map (fun p => if p.2 ≤ position then p else (p.1, p.2 - delta))

/-- `transform_compressible(items, constants, labels)` worker, tracking
the running byte position.  Only `jal` is recognized: with `rd` resolving
to 0 (resp. 1) and the immediate evaluating to an even value in
[-2048, 2047], the item becomes the 2-byte `c.j` (resp. `c.jal`) and all
later labels shift down by 2. -/
def transformCompressibleAux (position : ℤ) (constants labels : Env) :
    List Item → Except PyError (List Item × Env)
  | [] => .ok ([], labels)
  | item :: rest =>
    if itemIsInstruction item ∧ itemName item = some "jal" then do
      let rdAttr ← match itemRd item with
        | some r => pure r
        | none => throw (.attributeError "rd")
      let rd ← lookup_register rdAttr false
      let env : Env := constants ++ labels
      let e ← match itemImmField item with
        | some (.expr e) => pure e
        | some (.val _) => throw (.attributeError "eval")
        | none => throw (.attributeError "imm")
      let imm ← Expr.eval position env dummyLine e
      if rd = 0 ∧ imm % 2 = 0 ∧ imm ≥ -2048 ∧ imm ≤ 2047 then do
        let inst := Item.cjtype "c.j" (.expr e)
        let labels' := shrinkLabels labels position 2
        let (tl, labels'') ← transformCompressibleAux (position + 2) constants labels' rest
        return (inst :: tl, labels'')
      else if rd = 1 ∧ imm % 2 = 0 ∧ imm ≥ -2048 ∧ imm ≤ 2047 then do
        let inst := Item.cjtype "c.jal" (.expr e)
        let labels' := shrinkLabels labels position 2
        let (tl, labels'') ← transformCompressibleAux (position + 2) constants labels' rest
        return (inst :: tl, labels'')
      else do
        let (tl, labels') ←
          transformCompressibleAux (position + itemSize position item) constants labels rest
        return (item :: tl, labels')
    else do
      let (tl, labels') ←
        transformCompressibleAux (position + itemSize position item) constants labels rest
      return (item :: tl, labels')

/-- `transform_compressible(items, constants, labels)`. -/
def transform_compressible (items : List Item) (constants labels : Env) :
    Except PyError (List Item × Env) :=
  transformCompressibleAux 0 constants labels items

/-- `transform_pseudo_instructions(items, constants, labels)` worker.
Each pseudo item expands per the table in the source; the `li` branch
evaluates its immediate in `constants ∪ labels`, truncates with
`c_int32`, and either emits one `addi` (shrinking all later labels by 4)
or a `lui`/`addi` pair.  `call`/`tail` emit `auipc` plus a `jalr` flagged
`is_auipc_jump`. -/
def transformPseudoAux (position : ℤ) (constants labels : Env) :
    List Item → Except PyError (List Item × Env)
  | [] => .ok ([], labels)
  | item :: rest =>
    match item with
    | .pseudo name args =>
      let cont (insts : List Item) (delta : ℤ) (labels' : Env) :
          Except PyError (List Item × Env) := do
        let (tl, labels'') ← transformPseudoAux (position + delta) constants labels' rest
        return (insts ++ tl, labels'')
      if name = "nop" then
        cont [.itype "addi" (.str "x0") (.str "x0") (.expr (.arith "0")) false] 4 labels
      else if name = "li" then
        match args with
        | rd :: immToks => do
          let imm ← parse_immediate immToks
          let env : Env := constants ++ labels
          let value ← Expr.eval position env dummyLine imm
          let value := cInt32 value
          if value ≥ -2048 ∧ value ≤ 2047 then
            cont [.itype "addi" (.str rd) (.str "x0") (.expr (.lo imm)) false] 4
              (shrinkLabels labels position 4)
          else
            cont [.utype "lui" (.str rd) (.expr (.hi imm)),
                  .itype "addi" (.str rd) (.str rd) (.expr (.lo imm)) false] 8 labels
        | _ => throw (.valueError "not enough values to unpack")
      else if name = "mv" then
        match args with
        | [rd, rs] =>
          cont [.itype "addi" (.str rd) (.str rs) (.expr (.arith "0")) false] 4 labels
        | _ => throw (.valueError "values to unpack mismatch")
      else if name = "not" then
        match args with
        | [rd, rs] =>
          cont [.itype "xori" (.str rd) (.str rs) (.expr (.arith "-1")) false] 4 labels
        | _ => throw (.valueError "values to unpack mismatch")
      else if name = "neg" then
        match args with
        | [rd, rs] => cont [.rtype "sub" (.str rd) (.str "x0") (.str rs)] 4 labels
        | _ => throw (.valueError "values to unpack mismatch")
      else if name = "seqz" then
        match args with
        | [rd, rs] =>
          cont [.itype "sltiu" (.str rd) (.str rs) (.expr (.arith "1")) false] 4 labels
        | _ => throw (.valueError "values to unpack mismatch")
      else if name = "snez" then
        match args with
        | [rd, rs] => cont [.rtype "sltu" (.str rd) (.str "x0") (.str rs)] 4 labels
        | _ => throw (.valueError "values to unpack mismatch")
      else if name = "sltz" then
        match args with
        | [rd, rs] => cont [.rtype "slt" (.str rd) (.str rs) (.str "x0")] 4 labels
        | _ => throw (.valueError "values to unpack mismatch")
      else if name = "sgtz" then
        match args with
        | [rd, rs] => cont [.rtype "slt" (.str rd) (.str "x0") (.str rs)] 4 labels
        | _ => throw (.valueError "values to unpack mismatch")
      else if name = "beqz" then
        match args with
        | [rs, reference] => do
          let imm ← parse_immediate ["%offset", reference]
          cont [.btype "beq" (.str rs) (.str "x0") (.expr imm)] 4 labels
        | _ => throw (.valueError "values to unpack mismatch")
      else if name = "bnez" then
        match args with
        | [rs, reference] => do
          let imm ← parse_immediate ["%offset", reference]
          cont [.btype "bne" (.str rs) (.str "x0") (.expr imm)] 4 labels
        | _ => throw (.valueError "values to unpack mismatch")
      else if name = "blez" then
        match args with
        | [rs, reference] => do
          let imm ← parse_immediate ["%offset", reference]
          cont [.btype "bge" (.str "x0") (.str rs) (.expr imm)] 4 labels
        | _ => throw (.valueError "values to unpack mismatch")
      else if name = "bgez" then
        match args with
        | [rs, reference] => do
          let imm ← parse_immediate ["%offset", reference]
          cont [.btype "bge" (.str rs) (.str "x0") (.expr imm)] 4 labels
        | _ => throw (.valueError "values to unpack mismatch")
      else if name = "bltz" then
        match args with
        | [rs, reference] => do
          let imm ← parse_immediate ["%offset", reference]
          cont [.btype "blt" (.str rs) (.str "x0") (.expr imm)] 4 labels
        | _ => throw (.valueError "values to unpack mismatch")
      else if name = "bgtz" then
        match args with
        | [rs, reference] => do
          let imm ← parse_immediate ["%offset", reference]
          cont [.btype "blt" (.str "x0") (.str rs) (.expr imm)] 4 labels
        | _ => throw (.valueError "values to unpack mismatch")
      else if name = "bgt" then
        match args with
        | [rs, rt, reference] => do
          let imm ← parse_immediate ["%offset", reference]
          cont [.btype "blt" (.str rt) (.str rs) (.expr imm)] 4 labels
        | _ => throw (.valueError "values to unpack mismatch")
      else if name = "ble" then
        match args with
        | [rs, rt, reference] => do
          let imm ← parse_immediate ["%offset", reference]
          cont [.btype "bge" (.str rt) (.str rs) (.expr imm)] 4 labels
        | _ => throw (.valueError "values to unpack mismatch")
      else if name = "bgtu" then
        match args with
        | [rs, rt, reference] => do
          let imm ← parse_immediate ["%offset", reference]
          cont [.btype "bltu" (.str rt) (.str rs) (.expr imm)] 4 labels
        | _ => throw (.valueError "values to unpack mismatch")
      else if name = "bleu" then
        match args with
        | [rs, rt, reference] => do
          let imm ← parse_immediate ["%offset", reference]
          cont [.btype "bgeu" (.str rt) (.str rs) (.expr imm)] 4 labels
        | _ => throw (.valueError "values to unpack mismatch")
      else if name = "j" then
        match args with
        | [reference] => do
          let imm ← parse_immediate ["%offset", reference]
          cont [.jtype "jal" (.str "x0") (.expr imm)] 4 labels
        | _ => throw (.valueError "values to unpack mismatch")
      else if name = "jal" then
        match args with
        | [reference] => do
          let imm ← parse_immediate ["%offset", reference]
          cont [.jtype "jal" (.str "x1") (.expr imm)] 4 labels
        | _ => throw (.valueError "values to unpack mismatch")
      else if name = "jr" then
        match args with
        | [rs] =>
          cont [.itype "jalr" (.str "x0") (.str rs) (.expr (.arith "0")) false] 4 labels
        | _ => throw (.valueError "values to unpack mismatch")
      else if name = "jalr" then
        match args with
        | [rs] =>
          cont [.itype "jalr" (.str "x1") (.str rs) (.expr (.arith "0")) false] 4 labels
        | _ => throw (.valueError "values to unpack mismatch")
      else if name = "ret" then
        cont [.itype "jalr" (.str "x0") (.str "x1") (.expr (.arith "0")) false] 4 labels
      else if name = "call" then
        match args with
        | [reference] => do
          let imm ← parse_immediate ["%offset", reference]
          cont [.utype "auipc" (.str "x1") (.expr (.hi imm)),
                .itype "jalr" (.str "x1") (.str "x1") (.expr (.lo imm)) true] 8 labels
        | _ => throw (.valueError "values to unpack mismatch")
      else if name = "tail" then
        match args with
        | [reference] => do
          let imm ← parse_immediate ["%offset", reference]
          cont [.utype "auipc" (.str "x6") (.expr (.hi imm)),
                .itype "jalr" (.str "x0") (.str "x6") (.expr (.lo imm)) true] 8 labels
        | _ => throw (.valueError "values to unpack mismatch")
      else if name = "fence" then
        cont [.fenceItem "fence" (.int 0b1111) (.int 0b1111)] 4 labels
      else
        throw (.assemblerError "no translation for pseudo-instruction" dummyLine)
    | _ => do
      let (tl, labels') ←
        transformPseudoAux (position + itemSize position item) constants labels rest
      return (item :: tl, labels')

/-- `transform_pseudo_instructions(items, constants, labels)`. -/
def transform_pseudo_instructions (items : List Item) (constants labels : Env) :
    Except PyError (List Item × Env) :=
  transformPseudoAux 0 constants labels items

/-- `resolve_immediates(items, constants, labels)`: every item with an
`imm` field has it evaluated in `ChainMap(constants, labels)` at the
current position; an `is_auipc_jump` flag adds 4; the integer is stored
back into `imm`. -/
def resolveImmediatesAux (position : ℤ) (constants labels : Env) :
    List Item → Except PyError (List Item)
  | [] => .ok []
  | item :: rest =>
    match itemImmField item with
    | none => do
      let tl ← resolveImmediatesAux (position + itemSize position item) constants labels rest
      return item :: tl
    | some f => do
      let e ← match f with
        | .expr e => pure e
        | .val _ => throw (.attributeError "eval")
      let env : Env := constants ++ labels
      let imm ← Expr.eval position env dummyLine e
      let imm := if itemAuipc item then imm + 4 else imm
      let tl ← resolveImmediatesAux (position + itemSize position item) constants labels rest
      return setImm imm item :: tl

/-- `resolve_immediates(items, constants, labels)`. -/
def resolve_immediates (items : List Item) (constants labels : Env) :
    Except PyError (List Item) :=
  resolveImmediatesAux 0 constants labels items

/-- `resolve_strings(items)`: each `String` item becomes a `Blob` of its
UTF-8 bytes. -/
def resolve_strings : List Item → List Item
  | [] => []
  | .strItem value :: rest => .blob (pyUtf8 value) :: resolve_strings rest
  | item :: rest => item :: resolve_strings rest

/-- Pack one sequence element: `fmt = '<' + formats[name]`, lower-cased
(signed) when the value is negative. -/
def packSeqValue (name : String) (v : ℤ) : Except PyError (List ℕ) := do
  let w ← match seqWidth name with
    | some w => pure w
    | none => throw (.keyError name)
  match structPackInt w (decide (v < 0)) true v with
  | some bs => return bs
  | none => throw (.structError "argument out of range")

/-- `resolve_sequences(items)`: parse each token with `int(_, base=0)`
and pack little-endian at the kind's width. -/
def resolve_sequences : List Item → Except PyError (List Item)
  | [] => .ok []
  | .sequence name values :: rest => do
    let ints ← values.mapM (fun v =>
      match pyIntBase0 v with
      | some n => pure n
      | none => throw (PyError.valueError "invalid literal for int() with base 0"))
    let chunks ← ints.mapM (packSeqValue name)
    let tl ← resolve_sequences rest
    return .blob chunks.flatten :: tl
  | item :: rest => do
    let tl ← resolve_sequences rest
    return item :: tl

/-- `transform_shorthand_packs(items)`: `db/dh/dw/dd` become `Pack` items
with format `'<' + formats[name]`, lower-cased for negative values. -/
def transform_shorthand_packs : List Item → Except PyError (List Item)
  | [] => .ok []
  | .shorthandPack name imm :: rest => do
    let fmtChar ← match name with
      | "db" => pure "B"
      | "dh" => pure "H"
      | "dw" => pure "I"
      | "dd" => pure "Q"
      | _ => throw (.keyError name)
    let v ← match imm with
      | .val n => pure n
      | .expr _ => throw (.typeError "not supported between instances")
    let fmt := if v < 0 then pyLower ("<" ++ fmtChar) else "<" ++ fmtChar
    let tl ← transform_shorthand_packs rest
    return .pack fmt (.val v) :: tl
  | item :: rest => do
    let tl ← transform_shorthand_packs rest
    return item :: tl

/-- `resolve_packs(items)`: `struct.pack(fmt, imm)` into a `Blob`. -/
def resolve_packs : List Item → Except PyError (List Item)
  | [] => .ok []
  | .pack fmt imm :: rest => do
    let v ← match imm with
      | .val n => pure n
      | .expr _ => throw (.structError "required argument is not an integer")
    let data ← match structPack fmt v with
      | some d => pure d
      | none => throw (.structError "pack failed")
    let tl ← resolve_packs rest
    return .blob data :: tl
  | item :: rest => do
    let tl ← resolve_packs rest
    return item :: tl

/-- `resolve_aligns(items)`: an `Align` with zero padding is dropped;
otherwise it becomes that many zero bytes; other items advance the
position by their size. -/
def resolveAlignsAux (position : ℤ) : List Item → List Item
  | [] => []
  | .align alignment :: rest =>
    let padding := itemSize position (.align alignment)
    if padding = 0 then resolveAlignsAux position rest
    else .blob (List.replicate padding.toNat 0) :: resolveAlignsAux (position + padding) rest
  | item :: rest => item :: resolveAlignsAux (position + itemSize position item) rest

/-- `resolve_aligns(items)`. -/
def resolve_aligns (items : List Item) : List Item := resolveAlignsAux 0 items

/-- `resolve_blobs(items)`: concatenate; anything but a `Blob` is an
error at this point. -/
def resolve_blobs : List Item → Except PyError (List ℕ)
  | [] => .ok []
  | .blob data :: rest => do
    let tl ← resolve_blobs rest
    return data ++ tl
  | _ :: _ => throw (.valueError "expected only blobs at this point")

/-- **C3.** For every 32-bit `v`, with `hi = relocate_hi v` and
`lo = relocate_lo v`, the value `(hi <<< 12) + lo` truncated to 32 bits
(signed wrap, as in the pinned test `test_relocate_hi_lo_sum`) equals
`sign_extend v 32`. -/
theorem relocate_hi_lo_sum (v : ℤ) (h0 : 0 ≤ v) (h1 : v < 2 ^ 32) :
    cInt32 (relocate_hi v * 2 ^ 12 + relocate_lo v) = sign_extend v 32 := by
  unfold cInt32 relocate_hi relocate_lo sign_extend pyAndMask pyAndBit pyShr
  split <;> norm_num <;> omega

/-- Witness for **C3** at `v = 0xdeadbeef`. -/
theorem relocate_hi_lo_sum_witness :
    cInt32 (relocate_hi 0xdeadbeef * 2 ^ 12 + relocate_lo 0xdeadbeef) =
      sign_extend 0xdeadbeef 32 :=
  relocate_hi_lo_sum 0xdeadbeef (by norm_num) (by norm_num)

/-! ## Encoder pins against `tests/test_isa_ext_c.py` and `tests/test_asm.py` -/

theorem pin_c_beqz : C_BEQZ (.int 8) 0 = .ok 0b1100000000000001 ∧
    C_BEQZ (.int 15) (-256) = .ok 0b1101001110000001 := by decide

theorem pin_c_srai : C_SRAI (.int 15) 31 = .ok 0b1000011111111101 := by decide

theorem pin_c_j : C_J (-2048) = .ok 0b1011000000000001 ∧
    C_J 2046 = .ok 0b1010111111111101 := by decide

theorem pin_c_addi4spn : C_ADDI4SPN (.int 15) 1020 = .ok 0b0001111111111100 := by decide

theorem pin_c_lwsp : C_LWSP (.int 31) 252 = .ok 0b0101111111111110 := by decide

theorem pin_addi : ADDI (.str "t0") (.str "zero") 1 = .ok 0x00100293 := by decide

/-- **C1.** The claim: every encoder raises a range error for an immediate
strictly outside its declared range or violating its alignment, in
particular `cb_type` (declared range: signed 9-bit, multiple of 2, i.e.
[-256, 254] even) and `cbi_type` (declared range: signed 6-bit,
[-32, 31]).  The code has no such checks in these two encoders: `c.beqz
x8, 256` (out of range) and `c.beqz x8, 3` (misaligned) encode without
error, `256` producing the same 2-byte code as `-256` (decoded
immediate `-256 ≠ 256`), and `c.andi x8, 32` encodes as immediate `-32`.
This contradicts the claim (and §8.4 of the spec); every sibling
immediate encoder (`i/ij/s/b/u/j/ci/cia/cil/css/ciw/cl/cs/cj`) does
perform the check. -/
theorem c1_cb_cbi_missing_range_check :
    C_BEQZ (.str "x8") 256 = .ok 53249 ∧
    C_BEQZ (.str "x8") (-256) = .ok 53249 ∧
    cbDecodeImm 53249 = -256 ∧
    (-256 : ℤ) ≠ 256 ∧
    C_BEQZ (.str "x8") 3 = .ok 49161 ∧
    C_ANDI (.str "x8") 32 = .ok 38913 ∧
    cbiDecodeImm 38913 = -32 ∧
    (-32 : ℤ) ≠ 32 := by decide

/-- **C2.** The claim: final lowering packs 2 bytes for a compressed
instruction, so a compressed instruction's blob length equals its
declared size 2.  The code packs `struct.pack('<I', code)` — 4 bytes —
for every instruction: `c.nop` (declared size 2) becomes the 4-byte blob
`01 00 00 00`. -/
theorem c2_compressed_blob_is_4_bytes :
    resolve_instructions [.cintype "c.nop"] = .ok [.blob [1, 0, 0, 0]] ∧
    itemSize 0 (.cintype "c.nop") = 2 ∧
    ([1, 0, 0, 0] : List ℕ).length = 4 := by decide

/-- **C9 counterexample.**  The claim says a hexadecimal base-0 literal
operand of a jump is parsed as a literal immediate.  `is_int` uses plain
`int()` (base 10), so `jal x0 0x2a` wraps `0x2a` in `Offset('0x2a')`
as if it were a label. -/
theorem c9_hex_operand_becomes_offset :
    is_int "0x2a" = false ∧
    parse_item dummyLine ["jal", "x0", "0x2a"] =
      .ok (.jtype "jal" (.str "x0") (.expr (.offset "0x2a"))) := by decide

/-- **C9 (amended).**  For branch and jump final operands, only tokens
accepted by Python `int()` with its default base 10 (optionally signed
decimal) are parsed as literal immediates; hexadecimal, octal and binary
base-0 forms — and any other non-decimal token — are treated as label
references and wrapped in `Offset(label)`. -/
theorem c9_branch_jump_operand_classification :
    (is_int "42" = true ∧
      parse_item dummyLine ["beq", "t0", "zero", "42"] =
        .ok (.btype "beq" (.str "t0") (.str "zero") (.expr (.arith "42"))) ∧
      parse_item dummyLine ["jal", "x0", "-2"] =
        .ok (.jtype "jal" (.str "x0") (.expr (.arith "-2")))) ∧
    (is_int "0x2a" = false ∧ is_int "0b101010" = false ∧ is_int "0o52" = false ∧
      parse_item dummyLine ["beq", "t0", "zero", "0x2a"] =
        .ok (.btype "beq" (.str "t0") (.str "zero") (.expr (.offset "0x2a"))) ∧
      parse_item dummyLine ["jal", "x0", "0b101010"] =
        .ok (.jtype "jal" (.str "x0") (.expr (.offset "0b101010")))) ∧
    (is_int "end" = false ∧
      parse_item dummyLine ["jal", "x0", "end"] =
        .ok (.jtype "jal" (.str "x0") (.expr (.offset "end")))) := by decide

/-- **C8 counterexample.**  The claim says an `Offset` expression
referencing an undefined label fails with an `AssemblerError`; the code's
`Offset.eval` performs a bare `env[self.reference]`, so the raw
`KeyError` escapes unwrapped. -/
theorem c8_offset_unknown_label_keyerror :
    Expr.eval 0 [] dummyLine (.offset "missing") = .error (.keyError "missing") := by decide

/-- **C8 (amended).**  `Arithmetic` evaluation wraps every evaluator
failure into an `AssemblerError` carrying the offending `Line` (an
unknown name falls into the bare-`except` branch), but `Offset` and
`Position` expressions referencing an undefined name raise an unwrapped
`KeyError` that escapes the assemble call — also when nested under
`Hi`/`Lo`, which propagate inner exceptions unchanged. -/
theorem c8_eval_error_wrapping (line : Line) (position : ℤ) :
    Expr.eval position [] line (.arith "qux") =
      .error (.assemblerError "other error in expr: \x22qux\x22" line) ∧
    Expr.eval position [] line (.arith "1 +") =
      .error (.assemblerError "invalid syntax in expr: \x221 +\x22" line) ∧
    Expr.eval position [] line (.offset "qux") = .error (.keyError "qux") ∧
    Expr.eval position [] line (.position "qux" (.arith "0")) = .error (.keyError "qux") ∧
    Expr.eval position [] line (.hi (.offset "qux")) = .error (.keyError "qux") ∧
    Expr.eval position [] line (.lo (.offset "qux")) = .error (.keyError "qux") := by
  refine ⟨?_, ?_, rfl, rfl, rfl, rfl⟩ <;> rfl

/-- Witness for **C8 (amended)** at a concrete line and position. -/
theorem c8_eval_error_wrapping_witness :
    Expr.eval 4 [] (Line.mk "prog.asm" 3 "jal x0 qux") (.arith "qux") =
      .error (.assemblerError "other error in expr: \x22qux\x22"
        (Line.mk "prog.asm" 3 "jal x0 qux")) ∧
    Expr.eval 4 [] (Line.mk "prog.asm" 3 "jal x0 qux") (.offset "qux") =
      .error (.keyError "qux") :=
  ⟨(c8_eval_error_wrapping (Line.mk "prog.asm" 3 "jal x0 qux") 4).1,
   (c8_eval_error_wrapping (Line.mk "prog.asm" 3 "jal x0 qux") 4).2.2.1⟩

/-- **C7 counterexample.**  The claim says immediates evaluate in
`constants ∪ labels ∪ REGISTERS`, so a bare register name such as `t0`
in an `Arithmetic` immediate succeeds.  `resolve_immediates` builds
`ChainMap(constants, labels)` only; with no constant or label named
`t0`, the instruction `addi t0, zero, t0` fails with an
`AssemblerError` instead of resolving to 5. -/
theorem c7_register_immediate_fails :
    resolve_immediates
      [.itype "addi" (.str "t0") (.str "zero") (.expr (.arith "t0")) false] [] [] =
      .error (.assemblerError "other error in expr: \x22t0\x22" dummyLine) := by decide

/-- **C7 (amended).**  Every immediate expression is resolved by
evaluating it in the chained environment `constants ∪ labels` with the
earliest mapping winning; `REGISTERS` is **not** part of this
environment, so an `Arithmetic` immediate naming a bare register (here
`t0`) succeeds only when that name is bound as a constant or label, and
otherwise fails with an `AssemblerError`. -/
theorem c7_immediate_env_chain (position : ℤ) (constants labels : Env)
    (rd rs1 : PyScalar) (rest : List Item) :
    (∀ v : ℤ, List.lookup "t0" (constants ++ labels) = some v →
      resolveImmediatesAux position constants labels
        (.itype "addi" rd rs1 (.expr (.arith "t0")) false :: rest) =
        (resolveImmediatesAux (position + 4) constants labels rest).map
          (fun tl => .itype "addi" rd rs1 (.val v) false :: tl)) ∧
    (List.lookup "t0" (constants ++ labels) = none →
      resolveImmediatesAux position constants labels
        (.itype "addi" rd rs1 (.expr (.arith "t0")) false :: rest) =
        .error (.assemblerError "other error in expr: \x22t0\x22" dummyLine)) ∧
    (∀ v : ℤ, List.lookup "t0" constants = some v →
      List.lookup "t0" (constants ++ labels) = some v) := by
  have hparse : parseExprString "t0" = some (.var "t0") := by decide
  refine ⟨?_, ?_, ?_⟩
  · intro v hv
    simp only [resolveImmediatesAux, itemImmField, pure_bind]
    simp only [Expr.eval, pyEval, hparse, evalAExpr, hv, itemAuipc, setImm, itemSize]
    cases h : resolveImmediatesAux (position + 4) constants labels rest <;>
      simp only [h, Except.map] <;> rfl
  · intro hv
    simp only [resolveImmediatesAux, itemImmField, pure_bind]
    simp only [Expr.eval, pyEval, hparse, evalAExpr, hv]
    rfl
  · intro v hv
    simp [List.lookup_append, hv]

/-- Witness for **C7 (amended)**: with `t0` bound to 5 in constants and
to 9 in labels, the constant (earliest) wins. -/
theorem c7_immediate_env_chain_witness :
    resolveImmediatesAux 0 [("t0", 5)] [("t0", 9)]
      [.itype "addi" (.str "t0") (.str "zero") (.expr (.arith "t0")) false] =
      .ok [.itype "addi" (.str "t0") (.str "zero") (.val 5) false] := by
  have h := (c7_immediate_env_chain 0 [("t0", 5)] [("t0", 9)]
    (.str "t0") (.str "zero") []).1 5 (by decide)
  rw [h]
  decide

/-- `parse_immediate(['%offset', ref])` yields `Offset(ref)` whenever the
reference token is not itself `'('`. -/
theorem parse_immediate_offset_tok (L : String) (h : L ≠ "(") :
    parse_immediate ["%offset", L] = .ok (.offset L) := by
  have h1 : pyLower "%offset" = "%offset" := by decide
  simp [parse_immediate, parseImmediateGo, h1, h]

/-- **C4.**  Expanding `call L` yields exactly
`auipc x1, hi(%offset L); jalr x1, x1, lo(%offset L)` with the `jalr`
flagged `is_auipc_jump` (`tail L` likewise with `x6` as scratch and `x0`
as the jalr's rd), and during immediate resolution every instruction
carrying the `is_auipc_jump` flag has 4 added to its evaluated
immediate. -/
theorem c4_call_tail_auipc :
    (∀ (position : ℤ) (constants labels : Env) (L : String) (rest : List Item),
      L ≠ "(" →
      transformPseudoAux position constants labels (.pseudo "call" [L] :: rest) =
        (fun p => (Item.utype "auipc" (.str "x1") (.expr (.hi (.offset L))) ::
            Item.itype "jalr" (.str "x1") (.str "x1") (.expr (.lo (.offset L))) true :: p.1,
            p.2)) <$> transformPseudoAux (position + 8) constants labels rest) ∧
    (∀ (position : ℤ) (constants labels : Env) (L : String) (rest : List Item),
      L ≠ "(" →
      transformPseudoAux position constants labels (.pseudo "tail" [L] :: rest) =
        (fun p => (Item.utype "auipc" (.str "x6") (.expr (.hi (.offset L))) ::
            Item.itype "jalr" (.str "x0") (.str "x6") (.expr (.lo (.offset L))) true :: p.1,
            p.2)) <$> transformPseudoAux (position + 8) constants labels rest) ∧
    (∀ (position : ℤ) (constants labels : Env) (name : String) (rd rs1 : PyScalar)
      (e : Expr) (rest : List Item) (v : ℤ),
      Expr.eval position (constants ++ labels) dummyLine e = .ok v →
      resolveImmediatesAux position constants labels
        (.itype name rd rs1 (.expr e) true :: rest) =
        (fun tl => Item.itype name rd rs1 (.val (v + 4)) true :: tl) <$>
          resolveImmediatesAux (position + 4) constants labels rest) := by
  refine ⟨?_, ?_, ?_⟩
  · intro position constants labels L rest hL
    simp only [transformPseudoAux]
    simp [parse_immediate_offset_tok L hL]
    rfl
  · intro position constants labels L rest hL
    simp only [transformPseudoAux]
    simp [parse_immediate_offset_tok L hL]
    rfl
  · intro position constants labels name rd rs1 e rest v hv
    simp only [resolveImmediatesAux, itemImmField, pure_bind, hv, itemAuipc, setImm, itemSize]
    cases h : resolveImmediatesAux (position + 4) constants labels rest <;>
      simp only [h, if_true] <;> rfl

/-- Witness for **C4** at `call func` / `tail func` and a flagged `jalr`
whose immediate evaluates to 256. -/
theorem c4_call_tail_auipc_witness :
    transformPseudoAux 0 [] [] [.pseudo "call" ["func"]] =
      .ok ([.utype "auipc" (.str "x1") (.expr (.hi (.offset "func"))),
            .itype "jalr" (.str "x1") (.str "x1") (.expr (.lo (.offset "func"))) true], []) ∧
    transformPseudoAux 0 [] [] [.pseudo "tail" ["func"]] =
      .ok ([.utype "auipc" (.str "x6") (.expr (.hi (.offset "func"))),
            .itype "jalr" (.str "x0") (.str "x6") (.expr (.lo (.offset "func"))) true], []) ∧
    resolveImmediatesAux 0 [] [("func", 256)]
      [.itype "jalr" (.str "x1") (.str "x1") (.expr (.lo (.offset "func"))) true] =
      .ok [.itype "jalr" (.str "x1") (.str "x1") (.val 260) true] := by
  refine ⟨?_, ?_, ?_⟩
  · rw [c4_call_tail_auipc.1 0 [] [] "func" [] (by decide)]
    decide
  · rw [c4_call_tail_auipc.2.1 0 [] [] "func" [] (by decide)]
    decide
  · rw [c4_call_tail_auipc.2.2 0 [] [("func", 256)] "jalr" (.str "x1") (.str "x1")
      (.lo (.offset "func")) [] 256 (by decide)]
    decide

/-- `Except.ok` bound in `do` reduces to the continuation. -/
theorem ok_bind {ε α β : Type} (a : α) (f : α → Except ε β) :
    (Except.ok a : Except ε α) >>= f = f a := rfl

/-- Lookup characterization of the label-shrinking loop: a label at or
before the position is unchanged; one strictly beyond it moves down by
`delta`. -/
theorem lookup_shrinkLabels : ∀ (labels : Env) (position delta : ℤ) (n : String) (w : ℤ),
    List.lookup n labels = some w →
    List.lookup n (shrinkLabels labels position delta) =
      some (if w ≤ position then w else w - delta)
  | [], _, _, _, _, h => by simp at h
  | (k, v) :: tl, position, delta, n, w, h => by
    by_cases hk : n = k
    · subst hk
      simp only [List.lookup, beq_self_eq_true, Option.some.injEq] at h
      subst h
      simp only [shrinkLabels, List.map]
      split <;> simp_all [List.lookup]
    · have hbk : (n == k) = false := beq_eq_false_iff_ne.mpr hk
      have h' : List.lookup n tl = some w := by
        simpa [List.lookup, hbk] using h
      have ih := lookup_shrinkLabels tl position delta n w h'
      simp only [shrinkLabels, List.map] at ih ⊢
      split <;> simp [List.lookup, hbk, ih]

/-- **C5.**  For `li rd, imm`: the immediate is evaluated in
`constants ∪ labels` and truncated to signed 32 bits; if the result lies
in [-2048, 2047] the expansion is the single `addi rd, x0, lo(imm)` and
every label strictly beyond the `li`'s position drops by 4 (labels at or
before it, and the constants environment, are untouched); otherwise the
expansion is `lui rd, hi(imm); addi rd, rd, lo(imm)` with the labels
unchanged. -/
theorem c5_li_expansion :
    (∀ (position : ℤ) (constants labels : Env) (rd : String)
      (immToks : List String) (rest : List Item) (e : Expr) (v : ℤ),
      parse_immediate immToks = .ok e →
      Expr.eval position (constants ++ labels) dummyLine e = .ok v →
      transformPseudoAux position constants labels (.pseudo "li" (rd :: immToks) :: rest) =
        if cInt32 v ≥ -2048 ∧ cInt32 v ≤ 2047 then
          (fun p => (Item.itype "addi" (.str rd) (.str "x0") (.expr (.lo e)) false :: p.1,
            p.2)) <$>
            transformPseudoAux (position + 4) constants (shrinkLabels labels position 4) rest
        else
          (fun p => (Item.utype "lui" (.str rd) (.expr (.hi e)) ::
            Item.itype "addi" (.str rd) (.str rd) (.expr (.lo e)) false :: p.1, p.2)) <$>
            transformPseudoAux (position + 8) constants labels rest) ∧
    (∀ (labels : Env) (position : ℤ) (n : String) (w : ℤ),
      List.lookup n labels = some w →
      List.lookup n (shrinkLabels labels position 4) =
        some (if w ≤ position then w else w - 4)) := by
  constructor
  · intro position constants labels rd immToks rest e v hp hv
    simp only [transformPseudoAux]
    simp only [hp, ok_bind, hv]
    simp
  · intro labels position n w h
    exact lookup_shrinkLabels labels position 4 n w h

/-- Witness for **C5**: `li t0, 42` (in range) shrinks the later label
`after` from 8 to 4; `li t0, 0x20000000` (out of range) keeps it. -/
theorem c5_li_expansion_witness :
    transformPseudoAux 0 [] [("after", 8)] [.pseudo "li" ["t0", "42"]] =
      .ok ([.itype "addi" (.str "t0") (.str "x0") (.expr (.lo (.arith "42"))) false],
        [("after", 4)]) ∧
    transformPseudoAux 0 [] [("after", 8)] [.pseudo "li" ["t0", "0x20000000"]] =
      .ok ([.utype "lui" (.str "t0") (.expr (.hi (.arith "0x20000000"))),
            .itype "addi" (.str "t0") (.str "t0") (.expr (.lo (.arith "0x20000000"))) false],
        [("after", 8)]) ∧
    List.lookup "after" (shrinkLabels [("after", 8)] 0 4) = some 4 := by
  refine ⟨?_, ?_, ?_⟩
  · rw [c5_li_expansion.1 0 [] [("after", 8)] "t0" ["42"] [] (.arith "42") 42
      (by decide) (by decide)]
    decide
  · rw [c5_li_expansion.1 0 [] [("after", 8)] "t0" ["0x20000000"] []
      (.arith "0x20000000") 0x20000000 (by decide) (by decide)]
    decide
  · have := c5_li_expansion.2 [("after", 8)] 0 "after" 8 (by decide)
    simpa using this

/-- **C6.**  In the compression transform, a `jal` whose immediate
evaluates (in `constants ∪ labels` at the current position) to an even
value in [-2048, 2047] becomes the 2-byte `c.j` when `rd` resolves to 0
and the 2-byte `c.jal` when it resolves to 1, shrinking exactly the
labels strictly beyond the item's position by 2 (labels at or before it,
and the constants environment, are untouched); any other `jal` is kept
unchanged with no label movement. -/
theorem c6_jal_compression :
    (∀ (position : ℤ) (constants labels : Env) (rd : PyScalar) (e : Expr)
      (rest : List Item) (rdv v : ℤ),
      lookup_register rd false = .ok rdv →
      Expr.eval position (constants ++ labels) dummyLine e = .ok v →
      transformCompressibleAux position constants labels
        (.jtype "jal" rd (.expr e) :: rest) =
        if rdv = 0 ∧ v % 2 = 0 ∧ v ≥ -2048 ∧ v ≤ 2047 then
          (fun p => (Item.cjtype "c.j" (.expr e) :: p.1, p.2)) <$>
            transformCompressibleAux (position + 2) constants
              (shrinkLabels labels position 2) rest
        else if rdv = 1 ∧ v % 2 = 0 ∧ v ≥ -2048 ∧ v ≤ 2047 then
          (fun p => (Item.cjtype "c.jal" (.expr e) :: p.1, p.2)) <$>
            transformCompressibleAux (position + 2) constants
              (shrinkLabels labels position 2) rest
        else
          (fun p => (Item.jtype "jal" rd (.expr e) :: p.1, p.2)) <$>
            transformCompressibleAux (position + 4) constants labels rest) ∧
    (∀ (labels : Env) (position : ℤ) (n : String) (w : ℤ),
      List.lookup n labels = some w →
      List.lookup n (shrinkLabels labels position 2) =
        some (if w ≤ position then w else w - 2)) := by
  constructor
  · intro position constants labels rd e rest rdv v hrd hv
    simp [transformCompressibleAux, itemIsInstruction, itemName, itemRd, itemImmField,
      hrd, hv, ok_bind, itemSize]
  · intro labels position n w h
    exact lookup_shrinkLabels labels position 2 n w h

/-- Witness for **C6**: `jal x0, end` with `end` 8 bytes ahead compresses
to `c.j` and shrinks `end` to 6; `jal x5, 0` is left unchanged. -/
theorem c6_jal_compression_witness :
    transformCompressibleAux 0 [] [("end", 8), ("before", 0)]
      [.jtype "jal" (.str "x0") (.expr (.offset "end"))] =
      .ok ([.cjtype "c.j" (.expr (.offset "end"))], [("end", 6), ("before", 0)]) ∧
    transformCompressibleAux 0 [] [("end", 8)]
      [.jtype "jal" (.str "x5") (.expr (.arith "0"))] =
      .ok ([.jtype "jal" (.str "x5") (.expr (.arith "0"))], [("end", 8)]) := by
  constructor
  · rw [c6_jal_compression.1 0 [] [("end", 8), ("before", 0)] (.str "x0")
      (.offset "end") [] 0 8 (by decide) (by decide)]
    decide
  · rw [c6_jal_compression.1 0 [] [("end", 8)] (.str "x5") (.arith "0") [] 5 0
      (by decide) (by decide)]
    decide

theorem throw_eq {ε α : Type} (e : ε) : (throw e : Except ε α) = .error e := rfl

theorem error_bind {ε α β : Type} (e : ε) (f : α → Except ε β) :
    (Except.error e : Except ε α) >>= f = .error e := rfl

theorem pure_eq_ok {ε α : Type} (a : α) : (pure a : Except ε α) = .ok a := rfl

theorem leBytes_length : ∀ (n v : ℕ), (leBytes n v).length = n
  | 0, _ => rfl
  | n + 1, v => by simp [leBytes, leBytes_length n]

theorem structPackInt_length (size : ℕ) (s l : Bool) (v : ℤ) (bs : List ℕ)
    (h : structPackInt size s l v = some bs) : bs.length = size := by
  cases l <;> cases s <;>
  · simp [structPackInt] at h
    obtain ⟨-, rfl⟩ := h
    simp [leBytes_length]

theorem packSeqValue_length (name : String) (v : ℤ) (bs : List ℕ)
    (h : packSeqValue name v = .ok bs) : bs.length = (seqWidth name).getD 0 := by
  unfold packSeqValue at h
  cases hw : seqWidth name with
  | none => simp [hw, throw_eq, error_bind] at h
  | some w =>
    simp only [hw, pure_bind] at h
    cases hp : structPackInt w (decide (v < 0)) true v with
    | none => simp [hp, throw_eq] at h
    | some bs' =>
      simp [hp, pure_eq_ok] at h
      subst h
      simp [structPackInt_length _ _ _ _ _ hp]

theorem seq_chunks_length (name : String) :
    ∀ (ints : List ℤ) (chunks : List (List ℕ)),
      List.mapM' (packSeqValue name) ints = .ok chunks →
      chunks.flatten.length = ((seqWidth name).getD 0) * ints.length
  | [], chunks, h => by
    simp [List.mapM', pure_eq_ok] at h
    subst h
    simp
  | x :: xs, chunks, h => by
    rw [List.mapM'_cons] at h
    cases h1 : packSeqValue name x with
    | error e => simp [h1, throw_eq, error_bind] at h
    | ok y =>
      cases h2 : List.mapM' (packSeqValue name) xs with
      | error e => simp [h1, h2, ok_bind, error_bind] at h
      | ok ys =>
        simp [h1, h2, ok_bind, pure_eq_ok] at h
        subst h
        have hy := packSeqValue_length name x y h1
        have ih := seq_chunks_length name xs ys h2
        simp [List.flatten, hy, ih]
        ring

theorem mapM'_ok_length {α β : Type} (f : α → Except PyError β) :
    ∀ (l : List α) (ys : List β), List.mapM' f l = .ok ys → ys.length = l.length
  | [], ys, h => by
    simp [List.mapM', pure_eq_ok] at h
    simp [← h]
  | x :: xs, ys, h => by
    rw [List.mapM'_cons] at h
    cases h1 : f x with
    | error e => simp [h1, throw_eq, error_bind] at h
    | ok y =>
      cases h2 : List.mapM' f xs with
      | error e => simp [h1, h2, ok_bind, error_bind] at h
      | ok zs =>
        simp [h1, h2, ok_bind, pure_eq_ok] at h
        subst h
        simp [mapM'_ok_length f xs zs h2]

theorem bind_ok {ε α β : Type} {x : Except ε α} {f : α → Except ε β} {b : β}
    (h : x >>= f = .ok b) : ∃ a, x = .ok a ∧ f a = .ok b := by
  cases x with
  | error e => simp [error_bind] at h
  | ok a => exact ⟨a, rfl, h⟩

/-- **C10 counterexample.**  The claim says every Align contributes
exactly `size(position)` bytes to the output.  The parser accepts a
negative alignment (`int(_, base=0)` allows a sign), and at position 1
the item `align -4` has `size(1) = -4 - (1 % -4) = -1`; `resolve_aligns`
then emits `b'\x00' * -1`, the empty blob — 0 bytes — while position
arithmetic moves by -1, so the bytes contributed do not equal
`size(position)`. -/
theorem c10_negative_align_size_mismatch :
    parse_item dummyLine ["align", "-4"] = .ok (.align (-4)) ∧
    resolveAlignsAux 1 [.align (-4)] = [.blob []] ∧
    itemSize 1 (.align (-4)) = -1 ∧
    (([] : List ℕ).length : ℤ) ≠ itemSize 1 (.align (-4)) := by decide

/-- **C10 (amended).**  For every data item of kind String, Sequence, or
Pack, the bytes it contributes to the output equal `item.size(position)`
as used during label resolution: a String becomes a Blob of its UTF-8
bytes, whose length is its size; a successfully lowered Sequence becomes
a Blob of length `width * len(values)`; a successful `struct.pack` yields
`struct.calcsize(fmt)` bytes.  An Align of *positive* alignment emits
exactly `size(position)` zero bytes, and is dropped (contributing zero
bytes) when that size is zero; for a negative alignment the agreement
fails (see the counterexample above). -/
theorem c10_data_item_sizes :
    (∀ (value : String) (rest : List Item) (p : ℤ),
      resolve_strings (.strItem value :: rest) =
        .blob (pyUtf8 value) :: resolve_strings rest ∧
      ((pyUtf8 value).length : ℤ) = itemSize p (.strItem value)) ∧
    (∀ (name : String) (values : List String) (rest out : List Item) (p : ℤ),
      resolve_sequences (.sequence name values :: rest) = .ok out →
      ∃ data tl, out = .blob data :: tl ∧
        (data.length : ℤ) = itemSize p (.sequence name values)) ∧
    (∀ (fmt : String) (v : ℤ) (data : List ℕ) (p : ℤ),
      structPack fmt v = some data →
      (data.length : ℤ) = itemSize p (.pack fmt (.val v))) ∧
    (∀ (alignment p : ℤ) (rest : List Item), 0 < alignment →
      resolveAlignsAux p (.align alignment :: rest) =
        (if itemSize p (.align alignment) = 0 then resolveAlignsAux p rest
         else .blob (List.replicate (itemSize p (.align alignment)).toNat 0) ::
           resolveAlignsAux (p + itemSize p (.align alignment)) rest) ∧
      ((List.replicate (itemSize p (.align alignment)).toNat 0).length : ℤ) =
        itemSize p (.align alignment)) := by
  refine ⟨?_, ?_, ?_, ?_⟩
  · intro value rest p
    exact ⟨rfl, rfl⟩
  · intro name values rest out p h
    unfold resolve_sequences at h
    obtain ⟨ints, hi, h⟩ := bind_ok h
    obtain ⟨chunks, hc, h⟩ := bind_ok h
    obtain ⟨tl, ht, h⟩ := bind_ok h
    rw [pure_eq_ok] at h
    injection h with h
    rw [← List.mapM'_eq_mapM] at hi hc
    have h1 := seq_chunks_length name ints chunks hc
    have h2 := mapM'_ok_length _ values ints hi
    refine ⟨chunks.flatten, tl, h.symm, ?_⟩
    simp [itemSize, h1, h2]
  · intro fmt v data p h
    simp only [structPack] at h
    cases hs : structStripPrefix fmt.data with
    | nil => rw [hs] at h; simp at h
    | cons c cs' =>
      cases cs' with
      | cons d ds => rw [hs] at h; simp at h
      | nil =>
        rw [hs] at h
        dsimp only at h
        simp only [itemSize, structCalcsize, hs, List.foldl]
        split_ifs at h with h1 h2 h3 h4 h5 h6 h7 h8
        · have hl := structPackInt_length _ _ _ _ _ h
          subst h1; simp [structCharSize, hl]
        · have hl := structPackInt_length _ _ _ _ _ h
          subst h2; simp [structCharSize, hl]
        · have hl := structPackInt_length _ _ _ _ _ h
          subst h3; simp [structCharSize, hl]
        · have hl := structPackInt_length _ _ _ _ _ h
          subst h4; simp [structCharSize, hl]
        · have hl := structPackInt_length _ _ _ _ _ h
          rcases h5 with rfl | rfl <;> simp [structCharSize, hl]
        · have hl := structPackInt_length _ _ _ _ _ h
          rcases h6 with rfl | rfl <;> simp [structCharSize, hl]
        · have hl := structPackInt_length _ _ _ _ _ h
          subst h7; simp [structCharSize, hl]
        · have hl := structPackInt_length _ _ _ _ _ h
          subst h8; simp [structCharSize, hl]
  · intro alignment p rest halign
    refine ⟨rfl, ?_⟩
    simp only [itemSize, alignSize, List.length_replicate]
    have h1 := Int.fmod_nonneg' p halign
    have h2 := Int.fmod_lt_of_pos p halign
    generalize p.fmod alignment = m at h1 h2 ⊢
    split <;> omega

theorem c10_data_item_sizes_witness :
    (∃ data tl, ([.blob [1, 2]] : List Item) = .blob data :: tl ∧
      (data.length : ℤ) = itemSize 0 (.sequence "bytes" ["1", "2"])) ∧
    (([42, 0, 0, 0] : List ℕ).length : ℤ) = itemSize 0 (.pack "<I" (.val 42)) ∧
    (resolveAlignsAux 1 [.align 4] =
       (if itemSize 1 (.align 4) = 0 then resolveAlignsAux 1 []
        else .blob (List.replicate (itemSize 1 (.align 4)).toNat 0) ::
          resolveAlignsAux (1 + itemSize 1 (.align 4)) []) ∧
     ((List.replicate (itemSize 1 (.align 4)).toNat 0).length : ℤ) = itemSize 1 (.align 4)) :=
  ⟨c10_data_item_sizes.2.1 "bytes" ["1", "2"] [] [.blob [1, 2]] 0 (by decide),
   c10_data_item_sizes.2.2.1 "<I" 42 [42, 0, 0, 0] 0 (by decide),
   c10_data_item_sizes.2.2.2 4 1 [] (by decide)⟩
